import Mathlib

/-!
Shallow embedding of the PixelSamurai real-time combat simulation core:
the per-frame update loop, the style meter, the clash minigame, the
spawner/director and the combat resolver, together with theorems about
the embedded code.

Modelling conventions:
* JavaScript numbers are modelled as rationals; every arithmetic step of
  the simulation is exact on the inputs exercised here.
* Math.pow with a possibly fractional exponent (the slow-motion friction
  factors pow(b, deltaTime)) leaves the rationals, so the update function
  is parametric in a pow function (PowFn); theorems either hold for every
  such function, or instantiate it on runs whose only exponent is 1,
  where any function with pw b 1 = b agrees with the real power function.
  The real-exponent behaviour itself is analysed separately with the real
  power function (dashVelDecayFactor below).
* Math.sqrt(d) < r comparisons are modelled as d < r^2, which is
  equivalent for nonnegative operands.
* Purely cosmetic subsystems (particle motion, cape physics, gore parts,
  wall splatter, birds, camera, audio, graffiti) are reduced to a
  particle counter; the specification explicitly allows stubbing them.
* Entity and bullet identifiers (random strings / Date.now strings in
  the source) are modelled as naturals supplied by the input oracle.
-/

namespace PixelSamurai

/-- Models Math.pow as used with the per-tick deltaTime exponent. -/
abbrev PowFn := ℚ → ℚ → ℚ

-- Constants from constants.ts.
def CANVAS_WIDTH : ℚ := 854
def CANVAS_HEIGHT : ℚ := 480
def GRAVITY : ℚ := 8/100
def FRICTION : ℚ := 88/100
def PLAYER_SPEED : ℚ := 42/10
def JUMP_FORCE : ℚ := -72/10
def BULLET_SPEED : ℚ := 55/10
def ATTACK_DURATION : ℚ := 30
def SLOW_MO_FACTOR : ℚ := 1/10
def CLASH_DRAIN_RATE : ℚ := 1/10
def CLASH_GAIN_PER_TAP : ℚ := 25
def CLASH_WIN_THRESHOLD : ℚ := 100

-- const groundY = CANVAS_HEIGHT - 40 (computed in update and helpers).
def groundY : ℚ := CANVAS_HEIGHT - 40

inductive EntityType
  | PLAYER
  | ENEMY_SWORD
  | ENEMY_GUN
  | ENEMY_STRIKER
  | ENEMY_DEFENDER
  | ENEMY_LANCER
  | BOSS
  | DECOY
  deriving DecidableEq, Repr

inductive ActionState
  | idle
  | run
  | jump
  | attack
  | dodge
  | hurt
  | clash
  | dash_attack
  | launcher
  | downward_strike
  | air_attack
  | spin_attack
  deriving DecidableEq, Repr

inductive GameState
  | START
  | PLAYING
  | CLASHING
  | GAME_OVER
  | VICTORY
  | GUIDE
  deriving DecidableEq, Repr

inductive BulletOwner
  | player
  | enemy
  deriving DecidableEq, Repr

/-- The action-state string passed to addStyle (the source passes the raw
state string p.state as the skill name). -/
def stateName : ActionState → String
  | .idle => "idle"
  | .run => "run"
  | .jump => "jump"
  | .attack => "attack"
  | .dodge => "dodge"
  | .hurt => "hurt"
  | .clash => "clash"
  | .dash_attack => "dash_attack"
  | .launcher => "launcher"
  | .downward_strike => "downward_strike"
  | .air_attack => "air_attack"
  | .spin_attack => "spin_attack"

/-- Entity record (types.ts); cosmetic fields (bloodOnBody lives at world
level, capePoints, colorVariant, lastTapTime) are omitted or lifted. -/
structure Entity where
  id : ℕ
  type : EntityType
  posX : ℚ
  posY : ℚ
  velX : ℚ
  velY : ℚ
  width : ℚ
  height : ℚ
  health : ℚ
  maxHealth : ℚ
  facing : ℚ
  state : ActionState
  stateTimer : ℚ
  attackCooldown : ℚ
  comboIndex : ℕ
  windup : ℚ
  airComboCount : ℕ
  dodgeCooldown : ℚ
  slowMoEnergy : ℚ
  isSlowMoActive : Bool
  deriving DecidableEq, Repr

structure Bullet where
  id : ℕ
  posX : ℚ
  posY : ℚ
  velX : ℚ
  velY : ℚ
  owner : BulletOwner
  radius : ℚ
  isReflected : Bool
  hitList : List ℕ
  deriving DecidableEq, Repr

/-- The style-meter refs touched by addStyle (stylePointsRef,
lastSkillUsedRef, lastAttackTimeRef). -/
structure StyleAcc where
  stylePoints : ℚ
  lastSkill : Option String
  lastAttackTime : ℚ
  deriving DecidableEq, Repr

/-- Per-tick external inputs: current key states, key-event history,
wall-clock time and the random draws consumed by this tick. -/
structure Env where
  now : ℚ
  keyA : Bool
  keyD : Bool
  keyW : Bool
  keyS : Bool
  keySpace : Bool
  keyJ : Bool
  keyK : Bool
  jDownTime : Option ℚ
  inputHistory : List (String × ℚ)
  randSide : Bool
  randSideBoss : Bool
  randType : ℚ
  randCooldown : ℚ
  randInterval : ℚ
  freshId : ℕ
  freshBossId : ℕ
  newBossIndices : List ℕ
  deriving Repr

/-- The mutable refs of the Game component that make up the simulation
state (camera and cosmetic collections stubbed to a particle counter). -/
structure World where
  gameState : GameState
  player : Entity
  enemies : List Entity
  bullets : List Bullet
  particles : ℕ
  stylePoints : ℚ
  lastSkill : Option String
  lastAttackTime : ℚ
  prevHealth : ℚ
  clashProgress : ℚ
  clashTimer : ℚ
  clashTargetId : Option ℕ
  clashCooldown : ℚ
  killCombo : ℕ
  lastKillTime : ℚ
  score : ℕ
  spawnTimer : ℚ
  cameraShake : ℚ
  hitStop : ℕ
  decoyActive : Bool
  bloodOnBody : List ℚ
  spawnCycleCount : ℕ
  bossIndices : List ℕ
  processedJ : Bool
  processedK : Bool
  processedJumpKey : Bool
  processedJClash : Bool
  slamHitTriggered : Bool
  deriving DecidableEq, Repr

-- ---------------------------------------------------------------------
-- Style meter (STYLE_RANKS, getStyleData, addStyle)
-- ---------------------------------------------------------------------

def STYLE_RANKS : List (String × ℚ) :=
  [("D", 0), ("C", 1000), ("B", 2500), ("A", 5000), ("S", 8500),
   ("SS", 13000), ("SSS", 19000), ("OMG", 27000), ("GOD", 38000)]

def rankThreshold (i : ℕ) : ℚ := (STYLE_RANKS.getD i ("D", 0)).2

def rankName (i : ℕ) : String := (STYLE_RANKS.getD i ("D", 0)).1

/-- getStyleData's loop: the last index whose threshold is ≤ the score
(index stays 0 when the score is below every threshold). -/
def getStyleIndex (p : ℚ) : ℕ :=
  (List.range STYLE_RANKS.length).foldl
    (fun acc i => if rankThreshold i ≤ p then i else acc) 0

/-- getStyleData's next rank: STYLE_RANKS at index+1, or the same entry at
the top rank. -/
def getStyleNextIndex (p : ℚ) : ℕ :=
  min (getStyleIndex p + 1) (STYLE_RANKS.length - 1)

/-- getStyleData's progress field: linear interpolation to the next
threshold, 1.0 when the rank band is empty (top rank). -/
def styleProgressQ (p : ℚ) : ℚ :=
  let cur := rankThreshold (getStyleIndex p)
  let nxt := rankThreshold (getStyleNextIndex p)
  if nxt - cur = 0 then 1 else (p - cur) / (nxt - cur)

/-- STYLE_RANKS[styleData.index + 1]?.threshold || 1000 (style decay and
damage-penalty band width). -/
def nextThresholdOr1000 (i : ℕ) : ℚ :=
  if i + 1 < STYLE_RANKS.length then rankThreshold (i + 1) else 1000

/-- isInAir check used by addStyle. -/
def isInAir (p : Entity) : Bool := p.posY < groundY - p.height - 5

/-- addStyle(amount, skillName): parry floors the score at the next rank
threshold; the gain is amount times the novelty/airborne/slow-motion
multiplier times 0.1, capped at 45000. -/
def addStyle (p : Entity) (now amount : ℚ) (skillName : String)
    (st : StyleAcc) : StyleAcc :=
  let pts0 :=
    if skillName = "parry" then
      let nextLevelIdx := getStyleIndex st.stylePoints + 1
      max st.stylePoints
        (rankThreshold (min nextLevelIdx (STYLE_RANKS.length - 1)))
    else st.stylePoints
  let m0 : ℚ := if st.lastSkill = some skillName then 1 else 5/2
  let m1 : ℚ := if isInAir p then m0 * 2 else m0
  let m2 : ℚ := if p.isSlowMoActive then m1 * 2 else m1
  let gain := amount * m2 * (1/10)
  { stylePoints := min 45000 (pts0 + gain)
    lastSkill := some skillName
    lastAttackTime := now }

-- ---------------------------------------------------------------------
-- Dash-attack time-dilation sites (update lines 703/709/711 and 727/729)
-- ---------------------------------------------------------------------

/-- The base of the per-tick velocity decay factor pow(base, dt) used in
the special-state friction line: 0.95 for dash_attack, 0.85 for
downward_strike, FRICTION otherwise. -/
def specFrictionBase (s : ActionState) : ℚ :=
  if s = ActionState.dash_attack then 95/100
  else if s = ActionState.downward_strike then 85/100
  else FRICTION

/-- The step actually applied to position integration and state-timer
decay: 1.0 during dash_attack, deltaTime otherwise. -/
def dashFixedDt (s : ActionState) (dt : ℚ) : ℚ :=
  if s = ActionState.dash_attack then 1 else dt

/-- The real-number value of the dash_attack velocity decay factor
Math.pow(0.95, dt), as a function of the time-dilation step dt. -/
noncomputable def dashVelDecayFactor (dt : ℝ) : ℝ :=
  ((specFrictionBase ActionState.dash_attack : ℚ) : ℝ) ^ dt

-- ---------------------------------------------------------------------
-- Spawner/Director (spawnEnemy, spawnBoss, spawn timer)
-- ---------------------------------------------------------------------

/-- The spawner state touched by spawnEnemy: the enemy list, the running
per-cycle spawn counter and the pre-selected boss slots. -/
structure SpawnState where
  enemies : List Entity
  cycleCount : ℕ
  bossIndices : List ℕ
  deriving DecidableEq, Repr

/-- Type/hp/size table selected from the weighted random draw. -/
def enemyKindFromRand (r : ℚ) : EntityType × ℚ × ℚ × ℚ :=
  if r < 35/100 then (EntityType.ENEMY_GUN, 100, 45, 85)
  else if r < 1/2 then (EntityType.ENEMY_STRIKER, 60, 45, 85)
  else if r < 7/10 then (EntityType.ENEMY_DEFENDER, 220, 55, 95)
  else if r < 85/100 then (EntityType.ENEMY_LANCER, 110, 45, 85)
  else (EntityType.ENEMY_SWORD, 100, 45, 85)

/-- A freshly spawned regular enemy. -/
def baseEnemy (id : ℕ) (ty : EntityType) (hp wdt hgt spawnX side cd : ℚ) :
    Entity :=
  { id := id, type := ty, posX := spawnX, posY := groundY - hgt,
    velX := 0, velY := 0, width := wdt, height := hgt,
    health := hp, maxHealth := hp, facing := -side,
    state := ActionState.idle, stateTimer := 0, attackCooldown := cd,
    comboIndex := 0, windup := 0, airComboCount := 0, dodgeCooldown := 0,
    slowMoEnergy := 0, isSlowMoActive := false }

/-- spawnBoss: a boss entity offset from the player by 0.9 screen widths
on a random side. -/
def spawnBossEntity (env : Env) (playerX : ℚ) : Entity :=
  let side : ℚ := if env.randSideBoss then 1 else -1
  { id := env.freshBossId, type := EntityType.BOSS,
    posX := playerX + side * (CANVAS_WIDTH * (9/10)), posY := groundY - 210,
    velX := 0, velY := 0, width := 110, height := 210,
    health := 1400, maxHealth := 1400, facing := -side,
    state := ActionState.idle, stateTimer := 0, attackCooldown := 120,
    comboIndex := 0, windup := 0, airComboCount := 0, dodgeCooldown := 0,
    slowMoEnergy := 0, isSlowMoActive := false }

/-- spawnEnemy: refuses when 6 or more enemies are alive, advances the
spawn cycle, spawns a boss in addition on boss-slot indices, appends one
regular enemy, and re-randomizes the cycle after the 15th spawn. -/
def spawnEnemy (env : Env) (playerX : ℚ) (s : SpawnState) : SpawnState :=
  if 6 ≤ s.enemies.length then s
  else
    let cnt := s.cycleCount + 1
    let es1 := if cnt ∈ s.bossIndices then
        s.enemies ++ [spawnBossEntity env playerX]
      else s.enemies
    let kind := enemyKindFromRand env.randType
    let side : ℚ := if env.randSide then 1 else -1
    let spawnX := playerX + side * (CANVAS_WIDTH * (3/4))
    let es2 := es1 ++ [baseEnemy env.freshId kind.1 kind.2.1 kind.2.2.1
        kind.2.2.2 spawnX side (60 + env.randCooldown * 60)]
    if 15 ≤ cnt then
      { enemies := es2, cycleCount := 0, bossIndices := env.newBossIndices }
    else
      { enemies := es2, cycleCount := cnt, bossIndices := s.bossIndices }

/-- The randomized spawn-timer reset 140 + Math.random() * 50. -/
def spawnInterval (r : ℚ) : ℚ := 140 + r * 50

/-- Math.sign. -/
def qsign (x : ℚ) : ℚ := if 0 < x then 1 else if x < 0 then -1 else 0

/-- Math.abs. -/
def qabs (x : ℚ) : ℚ := if x < 0 then -x else x

-- ---------------------------------------------------------------------
-- Per-tick accumulator and context for the resolver passes
-- ---------------------------------------------------------------------

/-- Mutable refs threaded through the per-enemy / per-bullet resolver
passes of one tick. -/
structure Acc where
  player : Entity
  style : StyleAcc
  pending : GameState
  clashProgress : ℚ
  clashTargetId : Option ℕ
  clashCooldown : ℚ
  hitStop : ℕ
  cameraShake : ℚ
  particles : ℕ
  score : ℕ
  killCombo : ℕ
  lastKillTime : ℚ
  blood : List ℚ
  enemies : List Entity
  bullets : List Bullet
  deriving Repr

/-- Values fixed for the whole tick: deltaTime, the tick-start style index
(styleData at line 603), the rank damage multiplier and the
isPAttacking flag computed once before the enemy pass. -/
structure TickCtx where
  pw : PowFn
  env : Env
  dt : ℚ
  styleIdx0 : ℕ
  dmgMult : ℚ
  isPAttacking : Bool

/-- Rank damage multiplier: 2.0 from index 7, 1.5 from index 4, else 1. -/
def dmgMultOf (idx : ℕ) : ℚ := if 7 ≤ idx then 2 else if 4 ≤ idx then 3/2 else 1

/-- Per-rank kill heal table (rankHeals in the death branch). -/
def rankHeals : List ℚ := [15, 17, 19, 21, 23, 25, 26, 28, 30]

-- ---------------------------------------------------------------------
-- Enemy pass (the enemiesRef.filter body, update lines 734-769)
-- ---------------------------------------------------------------------

/-- Airborne hurt drift toward the player with a pow(0.95, dt) decay. -/
def applyHurtDrift (ctx : TickCtx) (pCenter eCenter : ℚ) (e : Entity) :
    Entity :=
  if e.state = ActionState.hurt ∧ e.posY < groundY - e.height - 10 then
    let vx := e.velX + qsign (pCenter - eCenter) * (22/100) * ctx.dt
    { e with velX := vx * ctx.pw (95/100) ctx.dt }
  else e

/-- spin_attack area damage: push the enemy, and on the 60ms/4-phase gate
deal 12 * dmgMult and add style. -/
def applySpin (ctx : TickCtx) (acc : Acc)
    (distAbs verticalDist pCenter eCenter : ℚ) (isBoss : Bool)
    (e : Entity) : Acc × Entity :=
  if acc.player.state = ActionState.spin_attack
      ∧ distAbs < (if isBoss then 380 else 280)
      ∧ verticalDist < (if isBoss then 200 else 150) then
    let e1 := { e with posX := e.posX +
      (if eCenter < pCenter then 1 else -1) * (if isBoss then 9/5 else 6) * ctx.dt }
    if (⌊ctx.env.now / 60⌋ : ℤ) % 4 = 0 then
      ({ acc with
          particles := acc.particles + 4,
          style := addStyle acc.player ctx.env.now 80 "spin" acc.style },
       { e1 with
          health := e1.health - 12 * ctx.dmgMult,
          state := ActionState.hurt, stateTimer := 10 })
    else (acc, e1)
  else (acc, e)

/-- Enemy approach/idle AI with per-type ranges and speeds; in range, the
attack cooldown post-decrements and arms the windup at zero. -/
def applyAI (_ctx : TickCtx) (pCenter eCenter distAbs : ℚ) (isBoss : Bool)
    (e : Entity) : Entity :=
  if e.state ≠ ActionState.attack ∧ e.state ≠ ActionState.hurt
      ∧ e.state ≠ ActionState.clash ∧ e.windup ≤ 0 then
    let facing : ℚ := if eCenter < pCenter then 1 else -1
    let range : ℚ :=
      if isBoss then 200
      else if e.type = EntityType.ENEMY_STRIKER then 120
      else if e.type = EntityType.ENEMY_LANCER then 240
      else if e.type = EntityType.ENEMY_DEFENDER then 100
      else if e.type = EntityType.ENEMY_SWORD then 95
      else 450
    if range < distAbs then
      { e with
        facing := facing, state := ActionState.run,
        velX := facing * (if isBoss then 6/5
          else if e.type = EntityType.ENEMY_STRIKER then 19/5
          else if e.type = EntityType.ENEMY_DEFENDER then 6/5 else 21/10) }
    else
      { e with
        facing := facing, state := ActionState.idle, velX := 0,
        attackCooldown := e.attackCooldown - 1,
        windup := if e.attackCooldown ≤ 0 then
            (if e.type = EntityType.ENEMY_GUN then (70:ℚ)
             else if isBoss then 50 else 16)
          else e.windup }
  else e

/-- Windup countdown; on expiry the enemy enters attack, resets its
cooldown, and a gun enemy fires a bullet. -/
def applyWindup (ctx : TickCtx) (isBoss : Bool) (e : Entity) :
    Entity × Option Bullet :=
  if 0 < e.windup then
    let wu := e.windup - ctx.dt
    if wu ≤ 0 then
      let e' := { e with
        windup := wu, state := ActionState.attack,
        stateTimer := if isBoss then 50 else 40,
        attackCooldown := if isBoss then 160
          else if e.type = EntityType.ENEMY_STRIKER then 60 else 140 }
      if e.type = EntityType.ENEMY_GUN then
        -- the bullet id is a random string in the source, never read
        let b : Bullet :=
          { id := 0, posX := e.posX + e.facing * 50,
            posY := e.posY + 40, velX := e.facing * BULLET_SPEED, velY := 0,
            owner := BulletOwner.enemy, radius := 15, isReflected := false,
            hitList := [] }
        (e', some b)
      else (e', none)
    else ({ e with windup := wu }, none)
  else (e, none)

/-- The clash-entry / player-melee-hit / enemy-hits-player if-else chain
(update lines 741-751). -/
def enemyCombat (ctx : TickCtx) (distAbs verticalDist : ℚ) (isBoss : Bool)
    (acc : Acc) (e : Entity) : Acc × Entity :=
  let p := acc.player
  if ctx.isPAttacking
      ∧ (e.state = ActionState.attack ∧ e.type ≠ EntityType.ENEMY_GUN
         ∧ 12 < e.stateTimer)
      ∧ distAbs < (if isBoss then 340 else 240)
      ∧ verticalDist < (if isBoss then 200 else 120)
      ∧ p.state ≠ ActionState.spin_attack ∧ acc.clashCooldown ≤ 0 then
    ({ acc with
        pending := GameState.CLASHING, clashProgress := 40,
        clashTargetId := some e.id, hitStop := 8 }, e)
  else if ctx.isPAttacking ∧ distAbs < (if isBoss then 200 else 150)
      ∧ verticalDist < (if isBoss then 180 else 120)
      ∧ (e.state ≠ ActionState.hurt ∨ e.stateTimer < 12)
      ∧ p.state ≠ ActionState.spin_attack then
    let isLauncherHit : Bool := p.state == ActionState.launcher
    let isSlamHit : Bool := p.state == ActionState.downward_strike
    let baseDamage : ℚ :=
      if e.type = EntityType.ENEMY_DEFENDER ∧ ¬isLauncherHit ∧ ¬isSlamHit
          ∧ e.facing ≠ p.facing then 5 else 45
    let e1 := { e with
      health := e.health - baseDamage * ctx.dmgMult,
      state := ActionState.hurt,
      stateTimer := if isLauncherHit then 45 else 20 }
    let e2 := if isLauncherHit then { e1 with velY := -25/2 }
      else if isSlamHit then { e1 with velY := 15 }
      else { e1 with velX := p.facing * (if isBoss then 3/5 else 7/2) }
    ({ acc with
        hitStop := if isBoss then 12 else 10,
        cameraShake := if isSlamHit then 15 else acc.cameraShake,
        particles := acc.particles + (if isBoss then 18 else 30),
        style := addStyle p ctx.env.now
          (if isLauncherHit then 600 else if isSlamHit then 800 else 250)
          (stateName p.state) acc.style }, e2)
  else if (e.state = ActionState.attack ∧ e.type ≠ EntityType.ENEMY_GUN
         ∧ 12 < e.stateTimer)
      ∧ distAbs < (if isBoss then 180
          else if e.type = EntityType.ENEMY_LANCER then 260 else 100)
      ∧ verticalDist < (if isBoss then 150 else 100)
      ∧ p.state ≠ ActionState.hurt ∧ p.state ≠ ActionState.dodge then
    ({ acc with
        player := { p with
          health := p.health - (if isBoss then 35
            else if e.type = EntityType.ENEMY_DEFENDER then 25 else 12),
          state := ActionState.hurt, stateTimer := 18,
          velX := e.facing * 12 },
        cameraShake := if isBoss then 10 else 4 }, e)
  else (acc, e)

/-- Enemy position/gravity integration, ground clamp and state-timer
countdown (always with deltaTime). -/
def integrateEnemy (ctx : TickCtx) (e : Entity) : Entity :=
  let px := e.posX + e.velX * ctx.dt
  let py := e.posY + e.velY * ctx.dt
  let vy := e.velY + GRAVITY * ctx.dt
  let py2 := if groundY - e.height < py then groundY - e.height else py
  let vy2 := if groundY - e.height < py then 0 else vy
  let tm := if 0 < e.stateTimer then e.stateTimer - ctx.dt else e.stateTimer
  let st := if 0 < e.stateTimer ∧ e.stateTimer - ctx.dt ≤ 0 then
      ActionState.idle else e.state
  { e with posX := px, posY := py2, velY := vy2, stateTimer := tm, state := st }

/-- Death branch: heal the player by the rank table, bump score and kill
combo, add style (rank floor for bosses), mark blood on the player, and
drop the enemy from the list (return false). -/
def enemyDeath (ctx : TickCtx) (acc : Acc) (isBoss : Bool) (e : Entity) :
    Acc × Option Entity :=
  if e.health ≤ 0 then
    let healPercent : ℚ := if isBoss then 25 else rankHeals.getD ctx.styleIdx0 15
    let p := acc.player
    let p' := { p with health := min p.maxHealth (p.health + healPercent) }
    let sty1 :=
      if isBoss then
        let idx := getStyleIndex acc.style.stylePoints
        addStyle p' ctx.env.now 500 "boss_kill_bonus"
          { acc.style with
            stylePoints := max acc.style.stylePoints
              (rankThreshold (min (idx + 1) (STYLE_RANKS.length - 1))) }
      else addStyle p' ctx.env.now 1500 "kill" acc.style
    ({ acc with
        player := p', style := sty1,
        score := acc.score + (if isBoss then 10 else 1),
        killCombo := acc.killCombo + 1, lastKillTime := ctx.env.now,
        cameraShake := if isBoss then 30 else 6,
        particles := acc.particles + (if isBoss then 380 else 70),
        blood := acc.blood ++ List.replicate 12 240 }, none)
  else (acc, some e)

/-- One enemy of the filter pass, in source order: hurt drift, spin
damage, AI, windup, combat chain, integration, death/culling. -/
def enemyStep (ctx : TickCtx) (acc : Acc) (e0 : Entity) :
    Acc × Option Entity :=
  let p := acc.player
  let pCenter := p.posX + p.width / 2
  let eCenter := e0.posX + e0.width / 2
  let distAbs := qabs (pCenter - eCenter)
  let verticalDist := qabs (p.posY - e0.posY)
  let isBoss : Bool := e0.type == EntityType.BOSS
  let e1 := applyHurtDrift ctx pCenter eCenter e0
  let r1 := applySpin ctx acc distAbs verticalDist pCenter eCenter isBoss e1
  let e3 := applyAI ctx pCenter eCenter distAbs isBoss r1.2
  let r2 := applyWindup ctx isBoss e3
  let acc2 := { r1.1 with bullets := r1.1.bullets ++ r2.2.toList }
  let r3 := enemyCombat ctx distAbs verticalDist isBoss acc2 r2.1
  let e6 := integrateEnemy ctx r3.2
  enemyDeath ctx r3.1 isBoss e6

def enemyPassStep (ctx : TickCtx) (st : Acc × List Entity) (e : Entity) :
    Acc × List Entity :=
  let r := enemyStep ctx st.1 e
  (r.1, st.2 ++ r.2.toList)

/-- enemiesRef.current = enemiesRef.current.filter(...) -/
def runEnemyPass (ctx : TickCtx) (acc : Acc) (es : List Entity) :
    Acc × List Entity :=
  es.foldl (enemyPassStep ctx) (acc, [])

-- ---------------------------------------------------------------------
-- Bullet pass (update lines 771-776)
-- ---------------------------------------------------------------------

/-- State of the reflected-bullet sweep over the enemy list. -/
structure SweepAcc where
  enemies : List Entity
  hitList : List ℕ
  style : StyleAcc
  particles : ℕ

/-- One enemy of the reflected-bullet sweep: skip already-hit ids, within
75 units one-shot non-bosses (or 400 * dmgMult on a boss), record the id
and add style. -/
def sweepStep (ctx : TickCtx) (p : Entity) (bx bY : ℚ) (s : SweepAcc)
    (e : Entity) : SweepAcc :=
  if e.id ∈ s.hitList then { s with enemies := s.enemies ++ [e] }
  else
    let eCenter := e.posX + e.width / 2
    let eMidY := e.posY + e.height / 2
    let d2 := (bx - eCenter)^2 + (bY - eMidY)^2
    if d2 < 75^2 then
      let e' := if e.type ≠ EntityType.BOSS then { e with health := 0 }
        else { e with health := e.health - 400 * ctx.dmgMult }
      { enemies := s.enemies ++ [e'], hitList := s.hitList ++ [e.id],
        style := addStyle p ctx.env.now 200 "reflect_hit" s.style,
        particles := s.particles + 50 }
    else { s with enemies := s.enemies ++ [e] }

def runSweep (ctx : TickCtx) (p : Entity) (bx bY : ℚ) (s0 : SweepAcc)
    (es : List Entity) : SweepAcc :=
  es.foldl (sweepStep ctx p bx bY) s0

/-- One bullet of the bullet pass: move, reflect on an attacking player
(kept unconditionally), damage the player, sweep enemies when reflected,
cull out of the 2000-unit range. Math.sqrt distances are compared
squared. -/
def bulletStep (ctx : TickCtx) (acc : Acc) (b0 : Bullet) :
    Acc × Option Bullet :=
  let p := acc.player
  let b1 := { b0 with posX := b0.posX + b0.velX * ctx.dt }
  let d2p := (b1.posX - (p.posX + 22))^2 + (b1.posY - (p.posY + 42))^2
  if b1.owner = BulletOwner.enemy then
    if ctx.isPAttacking ∧ d2p < 150^2 then
      ({ acc with
          style := addStyle p ctx.env.now 500 "parry" acc.style,
          hitStop := 14, cameraShake := 10 },
       some { b1 with
          owner := BulletOwner.player,
          velX := b1.velX * (-26/5), isReflected := true })
    else if d2p < 50^2 ∧ p.state ≠ ActionState.dodge
        ∧ p.state ≠ ActionState.hurt then
      ({ acc with
          player := { p with
            health := p.health - 20,
            state := ActionState.hurt, stateTimer := 20 } }, none)
    else if qabs (b1.posX - p.posX) < 2000 then (acc, some b1) else (acc, none)
  else if b1.owner = BulletOwner.player ∧ b1.isReflected then
    let sw0 : SweepAcc :=
      { enemies := [], hitList := b1.hitList, style := acc.style,
        particles := acc.particles }
    let sw := runSweep ctx p b1.posX b1.posY sw0 acc.enemies
    let acc' := { acc with
      enemies := sw.enemies, style := sw.style,
      particles := sw.particles }
    let b2 := { b1 with hitList := sw.hitList }
    if qabs (b2.posX - p.posX) < 2000 then (acc', some b2) else (acc', none)
  else if qabs (b1.posX - p.posX) < 2000 then (acc, some b1) else (acc, none)

def bulletPassStep (ctx : TickCtx) (st : Acc × List Bullet) (b : Bullet) :
    Acc × List Bullet :=
  let r := bulletStep ctx st.1 b
  (r.1, st.2 ++ r.2.toList)

def runBulletPass (ctx : TickCtx) (acc : Acc) (bs : List Bullet) :
    Acc × List Bullet :=
  bs.foldl (bulletPassStep ctx) (acc, [])

-- ---------------------------------------------------------------------
-- Player control (update lines 671-730)
-- ---------------------------------------------------------------------

structure MoveOut where
  p : Entity
  processedJumpKey : Bool

structure AtkOut where
  p : Entity
  cameraShake : ℚ
  particles : ℕ

structure CtrlOut where
  p : Entity
  processedJ : Bool
  processedK : Bool
  processedJumpKey : Bool
  slamHitTriggered : Bool
  cameraShake : ℚ
  particles : ℕ

/-- Movement / friction / jump section (lines 700-713): spin_attack energy
drain and exit, run/idle/jump with friction, special-state friction with
per-state pow bases, and the jump-key latch. -/
def playerMove (pw : PowFn) (env : Env) (dt : ℚ)
    (isOnGround isSpec procJump0 : Bool) (p : Entity) : MoveOut :=
  if p.state = ActionState.spin_attack then
    let en := max 0 (p.slowMoEnergy - 3/2)
    if en ≤ 0 ∨ ¬env.keyJ then
      { p := { p with
          slowMoEnergy := en, state := ActionState.idle,
          stateTimer := 0 }, processedJumpKey := procJump0 }
    else
      { p := { p with slowMoEnergy := en, velX := p.velX * pw FRICTION dt },
        processedJumpKey := procJump0 }
  else
    let r : MoveOut :=
      if ¬isSpec ∧ p.state ≠ ActionState.attack
          ∧ p.state ≠ ActionState.dodge then
        let pm :=
          if env.keyA then
            { p with
              velX := -PLAYER_SPEED, facing := -1,
              state := ActionState.run }
          else if env.keyD then
            { p with
              velX := PLAYER_SPEED, facing := 1,
              state := ActionState.run }
          else
            { p with
              velX := p.velX * pw FRICTION dt,
              state := if isOnGround then ActionState.idle
                else ActionState.jump }
        if (env.keySpace ∨ env.keyW) ∧ ¬procJump0 ∧ isOnGround then
          { p := { pm with velY := JUMP_FORCE, state := ActionState.jump },
            processedJumpKey := true }
        else { p := pm, processedJumpKey := procJump0 }
      else
        { p := { p with velX := p.velX * pw (specFrictionBase p.state) dt },
          processedJumpKey := procJump0 }
    { r with processedJumpKey :=
        if ¬(env.keySpace ∨ env.keyW) then false else r.processedJumpKey }

/-- Directional double-tap detection over the last three key-down events
(line 716). -/
def dashDirs (env : Env) : Bool × Bool :=
  let l := env.inputHistory
  if 3 ≤ l.length then
    match l.drop (l.length - 3) with
    | [h1, h2, h3] =>
      if env.now - h1.2 < 1200 then
        ((h1.1 == "KeyA") && (h2.1 == "KeyA") && (h3.1 == "KeyJ"),
         (h1.1 == "KeyD") && (h2.1 == "KeyD") && (h3.1 == "KeyJ"))
      else (false, false)
    | _ => (false, false)
  else (false, false)

/-- Attack-state selection on a new J press (lines 714-724). -/
def playerAttackSelect (env : Env) (isOnGround : Bool) (cs0 : ℚ)
    (parts0 : ℕ) (p : Entity) : AtkOut :=
  let dirs := dashDirs env
  let leftDash := dirs.1
  let rightDash := dirs.2
  if leftDash ∨ rightDash then
    let f : ℚ := if leftDash then -1 else 1
    { p := { p with
        facing := f, state := ActionState.dash_attack,
        stateTimer := 22, velX := f * 55 },
      cameraShake := 15, particles := parts0 + 1 + 70 }
  else if env.keyW then
    { p := { p with
        state := ActionState.launcher, stateTimer := 35,
        velY := -14 }, cameraShake := cs0, particles := parts0 + 25 }
  else if ¬isOnGround then
    if env.keyS ∨ 3 ≤ p.airComboCount then
      { p := { p with
          state := ActionState.downward_strike, stateTimer := 40,
          velY := 28 }, cameraShake := cs0, particles := parts0 }
    else
      { p := { p with
          state := ActionState.air_attack, stateTimer := 22,
          velY := -1, airComboCount := p.airComboCount + 1 },
        cameraShake := cs0, particles := parts0 }
  else
    { p := { p with
        state := ActionState.attack,
        stateTimer := ATTACK_DURATION, comboIndex := (p.comboIndex + 1) % 5,
        velX := p.facing * 4 }, cameraShake := cs0, particles := parts0 }

/-- Player integration (lines 727-730): position with the dash-fixed step,
gravity with deltaTime, ground clamp, state-timer decay with the
dash-fixed step, dodge cooldown with deltaTime. -/
def ctrlIntegrate (dt : ℚ) (isOnGround : Bool) (p : Entity) : Entity :=
  let ed := dashFixedDt p.state dt
  let px := p.posX + p.velX * ed
  let py := p.posY + p.velY * ed
  let vy := p.velY + GRAVITY * dt
  let py2 := if groundY - p.height < py then groundY - p.height else py
  let vy2 := if groundY - p.height < py then 0 else vy
  let tm := if 0 < p.stateTimer then p.stateTimer - ed else p.stateTimer
  let st := if 0 < p.stateTimer ∧ p.stateTimer - ed ≤ 0 then
      (if isOnGround then ActionState.idle else ActionState.jump)
    else p.state
  let dc := if 0 < p.dodgeCooldown then p.dodgeCooldown - dt
    else p.dodgeCooldown
  { p with
    posX := px, posY := py2, velY := vy2, stateTimer := tm,
    state := st, dodgeCooldown := dc }

/-- Player section of the PLAYING tick (lines 671-730): slam landing
trigger, air-combo reset, focus toggle, J-press latch, spin trigger,
movement, attack selection and integration. -/
def playerControl (pw : PowFn) (env : Env) (dt cs0 : ℚ) (parts0 : ℕ)
    (procJ0 procK0 procJump0 slam0 : Bool) (p0 : Entity) : CtrlOut :=
  let isOnGround : Bool := decide (groundY - p0.height - 2 ≤ p0.posY)
  let slamNow : Bool :=
    (p0.state == ActionState.downward_strike) && isOnGround && !slam0
  let slam1 : Bool := if slamNow then true
    else if p0.state != ActionState.downward_strike then false else slam0
  let cs1 := if slamNow then (45:ℚ) else cs0
  let parts1 := if slamNow then parts0 + 60 + 3 + 350 + 50 else parts0
  let p1 := if isOnGround then { p0 with airComboCount := 0 } else p0
  let toggled : Bool := env.keyK && !procK0
  let p2 := if toggled then
      (if ¬p1.isSlowMoActive ∧ 5 < p1.slowMoEnergy then
        { p1 with isSlowMoActive := true }
       else { p1 with isSlowMoActive := false })
    else p1
  let procK1 := if toggled then true else procK0
  let jPressed : Bool := env.keyJ && !procJ0
  let procJ1 := if jPressed then true else procJ0
  let isDirectionalActive : Bool := env.keyW || env.keyS
  let p3 :=
    match env.jDownTime with
    | some t =>
      if 450 < env.now - t ∧ ¬isDirectionalActive
          ∧ p2.state ≠ ActionState.spin_attack ∧ p2.state ≠ ActionState.hurt
          ∧ 0 < p2.slowMoEnergy
          ∧ p2.state ∉ [ActionState.launcher, ActionState.downward_strike,
              ActionState.dash_attack] then
        { p2 with state := ActionState.spin_attack }
      else p2
    | none => p2
  let isSpec : Bool := decide (p3.state ∈ [ActionState.launcher,
    ActionState.dash_attack, ActionState.downward_strike,
    ActionState.air_attack, ActionState.spin_attack])
  let inCtl : Bool :=
    decide (p3.state ≠ ActionState.hurt ∧ p3.state ≠ ActionState.clash)
  let mv := if inCtl then playerMove pw env dt isOnGround isSpec procJump0 p3
    else { p := p3, processedJumpKey := procJump0 }
  let doSel : Bool := inCtl && jPressed && (mv.p.state != ActionState.dodge)
  let sel := if doSel then playerAttackSelect env isOnGround cs1 parts1 mv.p
    else { p := mv.p, cameraShake := cs1, particles := parts1 }
  let pI := ctrlIntegrate dt isOnGround sel.p
  { p := pI, processedJ := procJ1, processedK := procK1,
    processedJumpKey := mv.processedJumpKey, slamHitTriggered := slam1,
    cameraShake := sel.cameraShake, particles := sel.particles }

-- ---------------------------------------------------------------------
-- Clash minigame tick (update lines 630-654)
-- ---------------------------------------------------------------------

/-- The CLASHING branch of update: drain the progress and timer, add
progress on a fresh J press, then resolve a win (kill the target and all
non-boss enemies, rank +2 floor, style bonus, hit-stop 40, cooldown 45)
or a loss (health 1, hurt, rank -2 floor with natural-number truncation
as Math.max(idx-2, 0), cooldown 60), both returning to PLAYING. -/
def clashTick (env : Env) (w : World) : World :=
  let p0 := { w.player with isSlowMoActive := true }
  let timer := w.clashTimer - 1
  let prog0 := w.clashProgress - CLASH_DRAIN_RATE
  let tap : Bool := env.keyJ && !w.processedJClash
  let prog1 := if tap then prog0 + CLASH_GAIN_PER_TAP else prog0
  let csTap := if tap then (4:ℚ) else w.cameraShake
  let partsTap := if tap then w.particles + 4 else w.particles
  let procJC : Bool := if !env.keyJ then false
    else (if tap then true else w.processedJClash)
  if CLASH_WIN_THRESHOLD ≤ prog1 then
    let enemies' := w.enemies.map (fun e =>
      if some e.id = w.clashTargetId ∨ e.type ≠ EntityType.BOSS then
        { e with health := 0 } else e)
    let idx := getStyleIndex w.stylePoints
    let stW : StyleAcc :=
      { stylePoints := rankThreshold (min (idx + 2) (STYLE_RANKS.length - 1)),
        lastSkill := w.lastSkill, lastAttackTime := w.lastAttackTime }
    let st1 := addStyle p0 env.now 4000 "clash_win" stW
    { w with
      gameState := GameState.PLAYING,
      player := { p0 with isSlowMoActive := false, velX := -p0.facing * 6 },
      enemies := enemies', stylePoints := st1.stylePoints,
      lastSkill := st1.lastSkill, lastAttackTime := st1.lastAttackTime,
      clashTimer := timer, clashProgress := prog1, processedJClash := procJC,
      cameraShake := 20, particles := partsTap + 183, hitStop := 40,
      clashCooldown := 45 }
  else if prog1 ≤ 0 ∨ timer ≤ 0 then
    let idx := getStyleIndex w.stylePoints
    { w with
      gameState := GameState.PLAYING,
      player := { p0 with
        health := 1, state := ActionState.hurt,
        stateTimer := 30, velX := -p0.facing * 25, isSlowMoActive := false },
      stylePoints := rankThreshold (idx - 2),
      clashTimer := timer, clashProgress := prog1, processedJClash := procJC,
      cameraShake := 8, particles := partsTap, clashCooldown := 60 }
  else
    { w with
      player := p0, clashTimer := timer, clashProgress := prog1,
      processedJClash := procJC, cameraShake := csTap, particles := partsTap }

-- ---------------------------------------------------------------------
-- Tick prefix (update lines 598-628) and the full tick
-- ---------------------------------------------------------------------

/-- The part of the tick that runs before the CLASHING branch: focus
energy regen or decoy drain, blood-mark healing, clash-cooldown
countdown. The decoy pose replay and the action-history buffer are
cosmetic and omitted. -/
def tickPre (_env : Env) (w : World) : World :=
  let p0 := w.player
  let dt := if p0.isSlowMoActive then SLOW_MO_FACTOR else 1
  let idx0 := getStyleIndex w.stylePoints
  let recoveryRate : ℚ := if 4 ≤ idx0 then 15 else 3 + (idx0 : ℚ) * 3
  let pDec := { p0 with slowMoEnergy := max 0 (p0.slowMoEnergy - (9/60) * dt) }
  let p1 := if w.decoyActive then pDec
    else { p0 with
            slowMoEnergy :=
              min 300 (p0.slowMoEnergy + (recoveryRate / 60) * dt) }
  let decoy1 : Bool := if w.decoyActive then decide (0 < pDec.slowMoEnergy)
    else false
  let n : ℚ := w.bloodOnBody.length
  let healPerFrame := p1.maxHealth * (5/100) / 240 * dt
  let healed := w.bloodOnBody.foldl
    (fun h _ => min p1.maxHealth (h + healPerFrame / n)) p1.health
  let p2 := if w.bloodOnBody.length = 0 then p1 else { p1 with health := healed }
  let blood1 := if w.bloodOnBody.length = 0 then w.bloodOnBody
    else (w.bloodOnBody.map (fun l => l - dt)).filter (fun l => 0 < l)
  let cc := if 0 < w.clashCooldown then w.clashCooldown - 1 else w.clashCooldown
  { w with
    player := p2, decoyActive := decoy1, bloodOnBody := blood1,
    clashCooldown := cc }

/-- Time-dilation step for this tick (computed once at line 598). -/
def tickDt (w : World) : ℚ :=
  if w.player.isSlowMoActive then SLOW_MO_FACTOR else 1

/-- Style score after the passive decay (no hit for 4000ms) and the
damage penalty (health below the previous tick), both sized by the
tick-start rank band. -/
def styleAfterDecay (env : Env) (w : World) : ℚ :=
  let idx0 := getStyleIndex w.stylePoints
  let band := nextThresholdOr1000 idx0 - rankThreshold idx0
  let sp1 := if 4000 < env.now - w.lastAttackTime then
      max 0 (w.stylePoints - band * (1/2) / 60 * tickDt w)
    else w.stylePoints
  if w.player.health < w.prevHealth then max 0 (sp1 - band * (7/10)) else sp1

/-- The player-control section applied to this tick's world (with the
camera-shake decrement of line 666 feeding in). -/
def mainCtrl (pw : PowFn) (env : Env) (w : World) : CtrlOut :=
  let cs0 := if 0 < w.cameraShake then w.cameraShake - 1 else w.cameraShake
  playerControl pw env (tickDt w) cs0 w.particles w.processedJ w.processedK
    w.processedJumpKey w.slamHitTriggered w.player

/-- The tick-constant context: deltaTime, tick-start style index, rank
damage multiplier, and isPAttacking computed after player control. -/
def mainCtx (pw : PowFn) (env : Env) (w : World) : TickCtx :=
  { pw := pw, env := env, dt := tickDt w,
    styleIdx0 := getStyleIndex w.stylePoints,
    dmgMult := dmgMultOf (getStyleIndex w.stylePoints),
    isPAttacking := decide ((mainCtrl pw env w).p.state ∈ [ActionState.attack,
      ActionState.launcher, ActionState.dash_attack,
      ActionState.downward_strike, ActionState.air_attack,
      ActionState.spin_attack]) }

/-- The accumulator at the start of the enemy pass. -/
def mainAcc0 (pw : PowFn) (env : Env) (w : World) : Acc :=
  { player := (mainCtrl pw env w).p,
    style :=
      { stylePoints := styleAfterDecay env w, lastSkill := w.lastSkill,
        lastAttackTime := w.lastAttackTime },
    pending := w.gameState, clashProgress := w.clashProgress,
    clashTargetId := w.clashTargetId, clashCooldown := w.clashCooldown,
    hitStop := w.hitStop, cameraShake := (mainCtrl pw env w).cameraShake,
    particles := (mainCtrl pw env w).particles, score := w.score,
    killCombo := if 0 < w.killCombo ∧ 5000 < env.now - w.lastKillTime then 0
      else w.killCombo,
    lastKillTime := w.lastKillTime, blood := w.bloodOnBody, enemies := [],
    bullets := w.bullets }

/-- The enemy filter pass of this tick. -/
def mainPass (pw : PowFn) (env : Env) (w : World) : Acc × List Entity :=
  runEnemyPass (mainCtx pw env w) (mainAcc0 pw env w) w.enemies

/-- The bullet pass of this tick, on the enemies kept by the enemy pass
and the bullets fired so far. -/
def mainBullet (pw : PowFn) (env : Env) (w : World) : Acc × List Bullet :=
  runBulletPass (mainCtx pw env w)
    { (mainPass pw env w).1 with enemies := (mainPass pw env w).2 }
    (mainPass pw env w).1.bullets

/-- The spawn step of this tick (runs when the spawn timer expired). -/
def mainSpawn (pw : PowFn) (env : Env) (w : World) : SpawnState :=
  if w.spawnTimer ≤ 0 then
    spawnEnemy env (mainBullet pw env w).1.player.posX
      { enemies := (mainBullet pw env w).1.enemies,
        cycleCount := w.spawnCycleCount, bossIndices := w.bossIndices }
  else
    { enemies := (mainBullet pw env w).1.enemies,
      cycleCount := w.spawnCycleCount, bossIndices := w.bossIndices }

/-- The PLAYING part of the tick after the clash branch: style decay and
damage penalty, camera/kill-combo bookkeeping, player control, the enemy
filter pass, the bullet pass, the spawn step and the game-over check.
Bird spawning is cosmetic and omitted. -/
def mainTick (pw : PowFn) (env : Env) (w : World) : World :=
  { gameState := if (mainBullet pw env w).1.player.health ≤ 0 then
      GameState.GAME_OVER else (mainBullet pw env w).1.pending,
    player := (mainBullet pw env w).1.player,
    enemies := (mainSpawn pw env w).enemies,
    bullets := (mainBullet pw env w).2,
    particles := (mainBullet pw env w).1.particles,
    stylePoints := (mainBullet pw env w).1.style.stylePoints,
    lastSkill := (mainBullet pw env w).1.style.lastSkill,
    lastAttackTime := (mainBullet pw env w).1.style.lastAttackTime,
    prevHealth := w.player.health,
    clashProgress := (mainBullet pw env w).1.clashProgress,
    clashTimer := w.clashTimer,
    clashTargetId := (mainBullet pw env w).1.clashTargetId,
    clashCooldown := (mainBullet pw env w).1.clashCooldown,
    killCombo := (mainBullet pw env w).1.killCombo,
    lastKillTime := (mainBullet pw env w).1.lastKillTime,
    score := (mainBullet pw env w).1.score,
    spawnTimer := if w.spawnTimer ≤ 0 then spawnInterval env.randInterval
      else w.spawnTimer - 1,
    cameraShake := (mainBullet pw env w).1.cameraShake,
    hitStop := (mainBullet pw env w).1.hitStop,
    decoyActive := w.decoyActive,
    bloodOnBody := (mainBullet pw env w).1.blood,
    spawnCycleCount := (mainSpawn pw env w).cycleCount,
    bossIndices := (mainSpawn pw env w).bossIndices,
    processedJ := (mainCtrl pw env w).processedJ,
    processedK := (mainCtrl pw env w).processedK,
    processedJumpKey := (mainCtrl pw env w).processedJumpKey,
    processedJClash := w.processedJClash,
    slamHitTriggered := (mainCtrl pw env w).slamHitTriggered }

/-- The tick body after the mode and hit-stop guards. -/
def updateCore (pw : PowFn) (env : Env) (w : World) : World :=
  if w.gameState = GameState.CLASHING then clashTick env (tickPre env w)
  else mainTick pw env (tickPre env w)

/-- The per-frame update: do nothing outside PLAYING/CLASHING; while the
hit-stop counter is positive, only decrement it; otherwise run the tick
body. -/
def update (pw : PowFn) (env : Env) (w : World) : World :=
  if w.gameState ≠ GameState.PLAYING ∧ w.gameState ≠ GameState.CLASHING then w
  else if 0 < w.hitStop then { w with hitStop := w.hitStop - 1 }
  else updateCore pw env w

-- ---------------------------------------------------------------------
-- Concrete sample inputs for witnesses and counterexamples
-- ---------------------------------------------------------------------

/-- A pow function agreeing with Math.pow at exponent 1; all concrete runs
below keep the time-dilation step at 1 (focus mode off). -/
def pwId : PowFn := fun b _ => b

/-- A quiet input frame: no keys, no history, fixed random draws. -/
def env0 : Env :=
  { now := 100000, keyA := false, keyD := false, keyW := false,
    keyS := false, keySpace := false, keyJ := false, keyK := false,
    jDownTime := none, inputHistory := [], randSide := true,
    randSideBoss := true, randType := 9/10, randCooldown := 0,
    randInterval := 0, freshId := 100, freshBossId := 101,
    newBossIndices := [1, 2] }

/-- The initial player of resetGame, standing on the ground. -/
def basePlayer : Entity :=
  { id := 0, type := EntityType.PLAYER, posX := 200, posY := groundY - 85,
    velX := 0, velY := 0, width := 45, height := 85, health := 100,
    maxHealth := 100, facing := 1, state := ActionState.idle,
    stateTimer := 0, attackCooldown := 0, comboIndex := 0, windup := 0,
    airComboCount := 0, dodgeCooldown := 0, slowMoEnergy := 300,
    isSlowMoActive := false }

/-- An airborne copy of the player (posY 300 < groundY - height - 5). -/
def playerAir : Entity := { basePlayer with posY := 300 }

/-- The style meter at zero with no last skill. -/
def styleZero : StyleAcc :=
  { stylePoints := 0, lastSkill := none, lastAttackTime := 0 }

/-- A PLAYING world matching the initial refs of the component. -/
def baseWorld : World :=
  { gameState := GameState.PLAYING, player := basePlayer, enemies := [],
    bullets := [], particles := 0, stylePoints := 0, lastSkill := none,
    lastAttackTime := 99000, prevHealth := 100, clashProgress := 40,
    clashTimer := 300, clashTargetId := none, clashCooldown := 0,
    killCombo := 0, lastKillTime := 0, score := 0, spawnTimer := 80,
    cameraShake := 0, hitStop := 0, decoyActive := false, bloodOnBody := [],
    spawnCycleCount := 0, bossIndices := [4, 11], processedJ := false,
    processedK := false, processedJumpKey := false, processedJClash := false,
    slamHitTriggered := false }

/-- A PLAYING world frozen by three ticks of hit-stop. -/
def wHit : World := { baseWorld with hitStop := 3 }

/-- A sword enemy mid attack (state timer above the 12-tick tail). -/
def swordAttacker : Entity :=
  { id := 7, type := EntityType.ENEMY_SWORD, posX := 250,
    posY := groundY - 85, velX := 0, velY := 0, width := 45, height := 85,
    health := 100, maxHealth := 100, facing := -1,
    state := ActionState.attack, stateTimer := 20, attackCooldown := 140,
    comboIndex := 0, windup := 0, airComboCount := 0, dodgeCooldown := 0,
    slowMoEnergy := 0, isSlowMoActive := false }

/-- The same sword enemy idle. -/
def swordIdle : Entity :=
  { swordAttacker with state := ActionState.idle, stateTimer := 0 }

/-- A world about to enter the clash: both actors attacking in range, but
with a clash timer already partly consumed by an earlier clash. -/
def wEntry : World :=
  { baseWorld with
    player := { basePlayer with state := ActionState.attack, stateTimer := 20 }
    enemies := [swordAttacker]
    clashTimer := 123 }

/-- A boss mid attack within player-hit range of the base player. -/
def bossAttacker : Entity :=
  { id := 9, type := EntityType.BOSS, posX := 300, posY := groundY - 210,
    velX := 0, velY := 0, width := 110, height := 210, health := 1400,
    maxHealth := 1400, facing := -1, state := ActionState.attack,
    stateTimer := 20, attackCooldown := 160, comboIndex := 0, windup := 0,
    airComboCount := 0, dodgeCooldown := 0, slowMoEnergy := 0,
    isSlowMoActive := false }

/-- A world in which the idle player at 10 health takes a 35-damage boss
hit this tick. -/
def wBossHit : World :=
  { baseWorld with
    player := { basePlayer with health := 10 }
    prevHealth := 10
    enemies := [bossAttacker] }

/-- A CLASHING world one tick away from a win (progress far above the
threshold), with a live sword enemy as the recorded target. -/
def wClashWin : World :=
  { baseWorld with
    gameState := GameState.CLASHING
    enemies := [swordIdle]
    clashProgress := 200
    clashTimer := 100
    clashTargetId := some 7 }

/-- A CLASHING world one tick away from a loss (progress drains to 0). -/
def wClashLoss : World :=
  { baseWorld with
    gameState := GameState.CLASHING
    enemies := [swordIdle]
    clashProgress := 1/20
    clashTimer := 100
    clashTargetId := some 7 }

/-- A spawner state with five live enemies, two spawns into a cycle whose
boss slots are 4 and 11: the next spawn call lands on slot 4. -/
def dummyEnemy (i : ℕ) : Entity :=
  baseEnemy i EntityType.ENEMY_SWORD 100 45 85 0 1 60

def spawnFive : SpawnState :=
  { enemies := [dummyEnemy 1, dummyEnemy 2, dummyEnemy 3, dummyEnemy 4,
      dummyEnemy 5],
    cycleCount := 3, bossIndices := [4, 11] }

/-- The clash progress after this tick's drain and tap gain (lines 632-636). -/
def clashProg1 (env : Env) (w : World) : ℚ :=
  let prog0 := w.clashProgress - CLASH_DRAIN_RATE
  if env.keyJ && !w.processedJClash then prog0 + CLASH_GAIN_PER_TAP else prog0

/-- The wEntry player after the control section. -/
def pEntryOut : Entity :=
  { basePlayer with
    velY := 2/25, state := ActionState.attack, stateTimer := 19 }

/-- The wEntry sword attacker after the enemy pass. -/
def eEntryOut : Entity :=
  { swordAttacker with
    velY := 2/25, stateTimer := 19 }

/-- The wEntry tick context. -/
def ctxE : TickCtx :=
  { pw := pwId, env := env0, dt := 1, styleIdx0 := 0, dmgMult := 1,
    isPAttacking := true }

/-- The wEntry accumulator entering the enemy pass. -/
def accE0 : Acc :=
  { player := pEntryOut,
    style := { stylePoints := 0, lastSkill := none, lastAttackTime := 99000 },
    pending := GameState.PLAYING, clashProgress := 40, clashTargetId := none,
    clashCooldown := 0, hitStop := 0, cameraShake := 0, particles := 0,
    score := 0, killCombo := 0, lastKillTime := 0, blood := [],
    enemies := [], bullets := [] }

/-- The wEntry accumulator after the enemy pass: the clash entry fired. -/
def accEOut : Acc :=
  { accE0 with
    pending := GameState.CLASHING, clashProgress := 40,
    clashTargetId := some 7, hitStop := 8 }

/-- The wBossHit player after the control section. -/
def pBossCtrl : Entity :=
  { basePlayer with health := 10, velY := 2/25 }

/-- The wBossHit player after the boss melee hit lands. -/
def pBossOut : Entity :=
  { basePlayer with
    health := -25, velX := -12, velY := 2/25,
    state := ActionState.hurt, stateTimer := 18 }

/-- The wBossHit boss after the enemy pass. -/
def eBossOut : Entity :=
  { bossAttacker with velY := 2/25, stateTimer := 19 }

/-- The wBossHit tick context. -/
def ctxB : TickCtx :=
  { pw := pwId, env := env0, dt := 1, styleIdx0 := 0, dmgMult := 1,
    isPAttacking := false }

/-- The wBossHit accumulator entering the enemy pass. -/
def accB0 : Acc :=
  { player := pBossCtrl,
    style := { stylePoints := 0, lastSkill := none, lastAttackTime := 99000 },
    pending := GameState.PLAYING, clashProgress := 40, clashTargetId := none,
    clashCooldown := 0, hitStop := 0, cameraShake := 0, particles := 0,
    score := 0, killCombo := 0, lastKillTime := 0, blood := [],
    enemies := [], bullets := [] }

/-- The wBossHit accumulator after the enemy pass: the boss hit landed. -/
def accBOut : Acc :=
  { accB0 with player := pBossOut, cameraShake := 10 }

-- ---------------------------------------------------------------------
-- Style meter lemmas
-- ---------------------------------------------------------------------

theorem getStyleIndex_eq (p : ℚ) :
    getStyleIndex p =
      if 38000 ≤ p then 8 else if 27000 ≤ p then 7 else if 19000 ≤ p then 6
      else if 13000 ≤ p then 5 else if 8500 ≤ p then 4 else if 5000 ≤ p then 3
      else if 2500 ≤ p then 2 else if 1000 ≤ p then 1 else 0 := by
  have hr : List.range STYLE_RANKS.length = [0,1,2,3,4,5,6,7,8] := rfl
  have h0 : rankThreshold 0 = 0 := rfl
  have h1 : rankThreshold 1 = 1000 := rfl
  have h2 : rankThreshold 2 = 2500 := rfl
  have h3 : rankThreshold 3 = 5000 := rfl
  have h4 : rankThreshold 4 = 8500 := rfl
  have h5 : rankThreshold 5 = 13000 := rfl
  have h6 : rankThreshold 6 = 19000 := rfl
  have h7 : rankThreshold 7 = 27000 := rfl
  have h8 : rankThreshold 8 = 38000 := rfl
  unfold getStyleIndex
  rw [hr]
  simp only [List.foldl, h0, h1, h2, h3, h4, h5, h6, h7, h8, ite_self]

theorem rankT0 : rankThreshold 0 = 0 := rfl
theorem rankT1 : rankThreshold 1 = 1000 := rfl
theorem rankT2 : rankThreshold 2 = 2500 := rfl
theorem rankT3 : rankThreshold 3 = 5000 := rfl
theorem rankT4 : rankThreshold 4 = 8500 := rfl
theorem rankT5 : rankThreshold 5 = 13000 := rfl
theorem rankT6 : rankThreshold 6 = 19000 := rfl
theorem rankT7 : rankThreshold 7 = 27000 := rfl
theorem rankT8 : rankThreshold 8 = 38000 := rfl

theorem getStyleIndex_le_eight (p : ℚ) : getStyleIndex p ≤ 8 := by
  rw [getStyleIndex_eq]; split_ifs <;> omega

theorem getStyleIndex_top {p : ℚ} (h : 38000 ≤ p) : getStyleIndex p = 8 := by
  rw [getStyleIndex_eq, if_pos h]

theorem ge_getStyleIndex_of_le {k : ℕ} {p : ℚ}
    (h : rankThreshold k ≤ p) (hk : k ≤ 8) : k ≤ getStyleIndex p := by
  rw [getStyleIndex_eq]
  interval_cases k
  · omega
  · rw [rankT1] at h; split_ifs <;> first | omega | linarith
  · rw [rankT2] at h; split_ifs <;> first | omega | linarith
  · rw [rankT3] at h; split_ifs <;> first | omega | linarith
  · rw [rankT4] at h; split_ifs <;> first | omega | linarith
  · rw [rankT5] at h; split_ifs <;> first | omega | linarith
  · rw [rankT6] at h; split_ifs <;> first | omega | linarith
  · rw [rankT7] at h; split_ifs <;> first | omega | linarith
  · rw [rankT8] at h; split_ifs <;> first | omega | linarith

theorem rankThreshold_getStyleIndex_le {p : ℚ} (h0 : 0 ≤ p) :
    rankThreshold (getStyleIndex p) ≤ p := by
  rw [getStyleIndex_eq]
  split_ifs <;>
    simp only [rankT0, rankT1, rankT2, rankT3, rankT4, rankT5, rankT6,
      rankT7, rankT8] <;> linarith

theorem getStyleIndex_mono {s1 s2 : ℚ} (h0 : 0 ≤ s1) (h : s1 ≤ s2) :
    getStyleIndex s1 ≤ getStyleIndex s2 := by
  have hle := rankThreshold_getStyleIndex_le h0
  exact ge_getStyleIndex_of_le (le_trans hle h) (getStyleIndex_le_eight s1)

theorem ranksLenM1 : STYLE_RANKS.length - 1 = 8 := rfl

theorem styleProgress_top {p : ℚ} (h : 38000 ≤ p) : styleProgressQ p = 1 := by
  simp only [styleProgressQ, getStyleNextIndex, getStyleIndex_top h,
    ranksLenM1]
  norm_num

theorem rankThreshold_strictMono_succ {i : ℕ} (h : i < 8) :
    rankThreshold i < rankThreshold (i + 1) := by
  interval_cases i <;> decide

theorem styleProgress_interp {p : ℚ} (h : getStyleIndex p < 8) :
    styleProgressQ p = (p - rankThreshold (getStyleIndex p)) /
      (rankThreshold (getStyleIndex p + 1) - rankThreshold (getStyleIndex p))
    := by
  have hnext : getStyleNextIndex p = getStyleIndex p + 1 := by
    simp only [getStyleNextIndex, ranksLenM1]
    omega
  have hlt := rankThreshold_strictMono_succ h
  simp only [styleProgressQ, hnext]
  rw [if_neg (sub_ne_zero.mpr (ne_of_gt hlt))]

-- ---------------------------------------------------------------------
-- C8
-- ---------------------------------------------------------------------

/-- C8: the rank function is monotonic in the score over [0, 45000], the
rank at score 0 is D, and progress-to-next is the linear interpolation
between the current and next thresholds, equal to 1.0 at the top rank. -/
theorem rank_monotone_rankD_progress (s1 s2 : ℚ) (h0 : 0 ≤ s1)
    (h12 : s1 ≤ s2) (h45 : s2 ≤ 45000) :
    getStyleIndex s1 ≤ getStyleIndex s2
    ∧ rankName (getStyleIndex 0) = "D"
    ∧ (∀ p : ℚ, 38000 ≤ p → styleProgressQ p = 1)
    ∧ (∀ p : ℚ, getStyleIndex p < 8 →
        styleProgressQ p = (p - rankThreshold (getStyleIndex p)) /
          (rankThreshold (getStyleIndex p + 1)
            - rankThreshold (getStyleIndex p))) := by
  refine ⟨getStyleIndex_mono h0 h12, ?_, fun p hp => styleProgress_top hp,
    fun p hp => styleProgress_interp hp⟩
  have hz : getStyleIndex 0 = 0 := by rw [getStyleIndex_eq]; norm_num
  rw [hz]
  rfl

/-- Witness for C8 at the concrete pair of scores 500 ≤ 600. -/
theorem rank_monotone_rankD_progress_witness :
    ((0:ℚ) ≤ 500 ∧ (500:ℚ) ≤ 600 ∧ (600:ℚ) ≤ 45000)
    ∧ (getStyleIndex 500 ≤ getStyleIndex 600
       ∧ rankName (getStyleIndex 0) = "D"
       ∧ (∀ p : ℚ, 38000 ≤ p → styleProgressQ p = 1)
       ∧ (∀ p : ℚ, getStyleIndex p < 8 →
           styleProgressQ p = (p - rankThreshold (getStyleIndex p)) /
             (rankThreshold (getStyleIndex p + 1)
               - rankThreshold (getStyleIndex p)))) :=
  ⟨⟨by norm_num, by norm_num, by norm_num⟩,
    rank_monotone_rankD_progress 500 600 (by norm_num) (by norm_num)
      (by norm_num)⟩

-- ---------------------------------------------------------------------
-- C1
-- ---------------------------------------------------------------------

/-- C1: outside the parry special case, addStyle gains exactly
amount × m × 0.1 with m = (novelty 2.5 or 1.0) × (2 if airborne) ×
(2 if focus), clamped into [0, 45000]; in particular a first-use launcher
hit (600 base) while airborne with focus off from score 0 gains exactly
300 and the rank stays D. -/
theorem addStyle_gain_formula (p : Entity) (now amount : ℚ) (skill : String)
    (st : StyleAcc) (hskill : skill ≠ "parry") (hamt : 0 ≤ amount)
    (h0 : 0 ≤ st.stylePoints) :
    ((addStyle p now amount skill st).stylePoints
      = min 45000 (st.stylePoints + amount *
          ((if st.lastSkill = some skill then (1:ℚ) else 5/2)
            * (if isInAir p then 2 else 1)
            * (if p.isSlowMoActive then 2 else 1)) * (1/10))
     ∧ 0 ≤ (addStyle p now amount skill st).stylePoints
     ∧ (addStyle p now amount skill st).stylePoints ≤ 45000)
    ∧ (addStyle playerAir 100000 600 "launcher" styleZero).stylePoints = 300
    ∧ getStyleIndex
        ((addStyle playerAir 100000 600 "launcher" styleZero).stylePoints) = 0
    ∧ rankName 0 = "D" := by
  have hky : isInAir playerAir = true := by
    norm_num [isInAir, playerAir, basePlayer, groundY, CANVAS_HEIGHT]
  have hsc : (addStyle playerAir 100000 600 "launcher" styleZero).stylePoints
      = 300 := by
    simp only [addStyle, styleZero, hky]
    rw [if_neg (show ¬("launcher" = "parry") by decide),
      if_neg (show ¬((none : Option String) = some "launcher") by decide)]
    simp only [playerAir, basePlayer]
    norm_num [min_def]
  have hpts : (addStyle p now amount skill st).stylePoints
      = min 45000 (st.stylePoints + amount *
          ((if st.lastSkill = some skill then (1:ℚ) else 5/2)
            * (if isInAir p then 2 else 1)
            * (if p.isSlowMoActive then 2 else 1)) * (1/10)) := by
    simp only [addStyle, if_neg hskill]
    split_ifs <;> ring_nf
  have hmulpos : (0:ℚ) < (if st.lastSkill = some skill then (1:ℚ) else 5/2)
      * (if isInAir p then 2 else 1) * (if p.isSlowMoActive then 2 else 1) := by
    split_ifs <;> norm_num
  refine ⟨⟨hpts, ?_, ?_⟩, hsc, ?_, rfl⟩
  · rw [hpts]
    exact le_min (by norm_num)
      (add_nonneg h0 (by positivity))
  · rw [hpts]; exact min_le_left _ _
  · rw [hsc, getStyleIndex_eq]; norm_num

/-- Witness for C1 at a concrete non-parry call: a repeated grounded
attack for 250 base with focus off. -/
theorem addStyle_gain_formula_witness :
    ((addStyle basePlayer 100000 250 "attack"
        { stylePoints := 2000, lastSkill := some "attack",
          lastAttackTime := 0 }).stylePoints
      = min 45000 (2000 + 250 *
          ((if (some "attack" : Option String) = some "attack" then (1:ℚ)
              else 5/2)
            * (if isInAir basePlayer then 2 else 1)
            * (if basePlayer.isSlowMoActive then 2 else 1)) * (1/10))
     ∧ 0 ≤ (addStyle basePlayer 100000 250 "attack"
          { stylePoints := 2000, lastSkill := some "attack",
            lastAttackTime := 0 }).stylePoints
     ∧ (addStyle basePlayer 100000 250 "attack"
          { stylePoints := 2000, lastSkill := some "attack",
            lastAttackTime := 0 }).stylePoints ≤ 45000)
    ∧ (addStyle playerAir 100000 600 "launcher" styleZero).stylePoints = 300
    ∧ getStyleIndex
        ((addStyle playerAir 100000 600 "launcher" styleZero).stylePoints) = 0
    ∧ rankName 0 = "D" :=
  addStyle_gain_formula basePlayer 100000 250 "attack"
    { stylePoints := 2000, lastSkill := some "attack", lastAttackTime := 0 }
    (by decide) (by norm_num) (by norm_num)

-- ---------------------------------------------------------------------
-- C7
-- ---------------------------------------------------------------------

/-- C7 counterexample: the dash_attack velocity decay factor
Math.pow(0.95, dt) is different under focus slow-motion (dt = 0.1) than
at normal speed (dt = 1), so the decay does not ignore time dilation. -/
theorem dash_decay_depends_on_dt :
    dashVelDecayFactor ((SLOW_MO_FACTOR : ℚ) : ℝ) ≠ dashVelDecayFactor 1 := by
  have hbase : ((specFrictionBase ActionState.dash_attack : ℚ) : ℝ)
      = 95/100 := by
    norm_num [specFrictionBase]
  have hsmf : ((SLOW_MO_FACTOR : ℚ) : ℝ) = 1/10 := by
    norm_num [SLOW_MO_FACTOR]
  have hlt : dashVelDecayFactor 1
      < dashVelDecayFactor ((SLOW_MO_FACTOR : ℚ) : ℝ) := by
    unfold dashVelDecayFactor
    rw [hbase, hsmf]
    exact Real.rpow_lt_rpow_of_exponent_gt (by norm_num) (by norm_num)
      (by norm_num)
  exact ne_of_gt hlt

/-- C7 (amended): during dash_attack the position integration and the
state-timer decay use a fixed step of 1.0 instead of deltaTime (every
other state uses deltaTime there), while the dash velocity decay factor
Math.pow(0.95, dt) does scale with deltaTime: it is strictly decreasing
in the exponent. -/
theorem dash_fixed_step_integration :
    (∀ dt : ℚ, dashFixedDt ActionState.dash_attack dt = 1)
    ∧ (∀ (s : ActionState) (dt : ℚ), s ≠ ActionState.dash_attack →
        dashFixedDt s dt = dt)
    ∧ specFrictionBase ActionState.dash_attack = 95/100
    ∧ (∀ y z : ℝ, 0 < y → y < z →
        dashVelDecayFactor z < dashVelDecayFactor y) := by
  refine ⟨fun dt => by simp [dashFixedDt], fun s dt hs => by
    simp [dashFixedDt, hs], rfl, fun y z hy hyz => ?_⟩
  unfold dashVelDecayFactor
  have hbase : ((specFrictionBase ActionState.dash_attack : ℚ) : ℝ)
      = 95/100 := by
    norm_num [specFrictionBase]
  rw [hbase]
  exact Real.rpow_lt_rpow_of_exponent_gt (by norm_num) (by norm_num) hyz

/-- Witness for C7 (amended) at concrete steps. -/
theorem dash_fixed_step_integration_witness :
    dashFixedDt ActionState.dash_attack (1/10) = 1
    ∧ dashFixedDt ActionState.idle (1/10) = 1/10
    ∧ dashVelDecayFactor 1 < dashVelDecayFactor (1/10) :=
  ⟨dash_fixed_step_integration.1 _,
   dash_fixed_step_integration.2.1 _ _ (by decide),
   dash_fixed_step_integration.2.2.2 _ _ (by norm_num) (by norm_num)⟩

-- ---------------------------------------------------------------------
-- C9
-- ---------------------------------------------------------------------

/-- C9 counterexample: with five live enemies and the cycle counter about
to hit boss slot 4, a single spawn step appends a boss and a regular
enemy, leaving seven concurrent enemies, more than the claimed cap 6. -/
theorem spawn_step_can_exceed_six :
    (spawnEnemy env0 200 spawnFive).enemies.length = 7
    ∧ ¬((spawnEnemy env0 200 spawnFive).enemies.length ≤ 6) := by
  have h7 : (spawnEnemy env0 200 spawnFive).enemies.length = 7 := by
    rw [spawnEnemy]
    norm_num [spawnFive, env0, enemyKindFromRand]
  exact ⟨h7, by omega⟩

/-- C9 (amended): the spawner refuses to spawn when 6 or more enemies are
alive; a spawn step adds at most two entities (one regular enemy and at
most one boss), so the count after a spawn step is at most the previous
count plus two (7 when entered at the cap boundary of 5); the spawn timer
reset is 140 + r·50 ∈ [140, 190) for a random draw r ∈ [0, 1). -/
theorem spawn_cap_and_interval (env : Env) (px : ℚ) (s : SpawnState)
    (hr0 : 0 ≤ env.randInterval) (hr1 : env.randInterval < 1) :
    (6 ≤ s.enemies.length → spawnEnemy env px s = s)
    ∧ (spawnEnemy env px s).enemies.length ≤ s.enemies.length + 2
    ∧ 140 ≤ spawnInterval env.randInterval
    ∧ spawnInterval env.randInterval < 190 := by
  refine ⟨fun h => by rw [spawnEnemy, if_pos h], ?_, ?_, ?_⟩
  · rw [spawnEnemy]
    by_cases h6 : 6 ≤ s.enemies.length
    · rw [if_pos h6]; omega
    · rw [if_neg h6]
      by_cases hmem : s.cycleCount + 1 ∈ s.bossIndices <;>
        by_cases h15 : 15 ≤ s.cycleCount + 1 <;>
          simp [hmem, h15, List.length_append] <;> omega
  · unfold spawnInterval
    nlinarith
  · unfold spawnInterval
    nlinarith

/-- Witness for C9 (amended) at the concrete five-enemy state. -/
theorem spawn_cap_and_interval_witness :
    ((0:ℚ) ≤ env0.randInterval ∧ env0.randInterval < 1)
    ∧ ((6 ≤ spawnFive.enemies.length → spawnEnemy env0 200 spawnFive = spawnFive)
       ∧ (spawnEnemy env0 200 spawnFive).enemies.length
           ≤ spawnFive.enemies.length + 2
       ∧ 140 ≤ spawnInterval env0.randInterval
       ∧ spawnInterval env0.randInterval < 190) :=
  ⟨⟨by norm_num [env0], by norm_num [env0]⟩,
    spawn_cap_and_interval env0 200 spawnFive (by norm_num [env0])
      (by norm_num [env0])⟩

-- ---------------------------------------------------------------------
-- C2
-- ---------------------------------------------------------------------

/-- C2: while the global hit-stop counter is positive at the start of a
PLAYING or CLASHING tick, the tick decrements only that counter and
leaves every other piece of world state (player, enemies, bullets,
particles, meters, timers) unchanged; the check short-circuits before any
other tick logic. -/
theorem hitStop_freezes_tick (pw : PowFn) (env : Env) (w : World)
    (hmode : w.gameState = GameState.PLAYING
      ∨ w.gameState = GameState.CLASHING)
    (hstop : 0 < w.hitStop) :
    update pw env w = { w with hitStop := w.hitStop - 1 } := by
  unfold update
  rcases hmode with h | h <;> rw [if_neg (by simp [h]), if_pos hstop]

/-- Witness for C2 at the frozen sample world. -/
theorem hitStop_freezes_tick_witness :
    (wHit.gameState = GameState.PLAYING
      ∨ wHit.gameState = GameState.CLASHING)
    ∧ 0 < wHit.hitStop
    ∧ update pwId env0 wHit = { wHit with hitStop := wHit.hitStop - 1 } :=
  ⟨Or.inl rfl, by decide,
    hitStop_freezes_tick pwId env0 wHit (Or.inl rfl) (by decide)⟩

theorem if_decide {α : Sort _} (p : Prop) [Decidable p] (a b : α) :
    (if decide p = true then a else b) = if p then a else b := by
  by_cases h : p <;> simp [h]

theorem update_clashing (pw : PowFn) (env : Env) (w : World)
    (hg : w.gameState = GameState.CLASHING) (hs : ¬ 0 < w.hitStop) :
    update pw env w = clashTick env (tickPre env w) := by
  unfold update updateCore
  rw [if_neg (by simp [hg]), if_neg hs, if_pos hg]

theorem update_playing (pw : PowFn) (env : Env) (w : World)
    (hg : w.gameState = GameState.PLAYING) (hs : ¬ 0 < w.hitStop) :
    update pw env w = mainTick pw env (tickPre env w) := by
  unfold update updateCore
  rw [if_neg (by simp [hg]), if_neg hs, if_neg (by simp [hg])]

theorem tickPre_wClashWin : tickPre env0 wClashWin = wClashWin := by
  norm_num [tickPre, env0, wClashWin, baseWorld, basePlayer, getStyleIndex_eq,
    min_def, max_def, World.mk.injEq, Entity.mk.injEq, SLOW_MO_FACTOR]

theorem tickPre_wClashLoss : tickPre env0 wClashLoss = wClashLoss := by
  norm_num [tickPre, env0, wClashLoss, baseWorld, basePlayer, getStyleIndex_eq,
    min_def, max_def, World.mk.injEq, Entity.mk.injEq, SLOW_MO_FACTOR]

theorem updWin_fields :
    (update pwId env0 wClashWin).gameState = GameState.PLAYING
    ∧ (update pwId env0 wClashWin).enemies = [{ swordIdle with health := 0 }]
    ∧ (update pwId env0 wClashWin).clashCooldown = 45 := by
  rw [update_clashing pwId env0 wClashWin rfl (by norm_num [wClashWin, baseWorld]),
    tickPre_wClashWin]
  norm_num [clashTick, env0, wClashWin, baseWorld, basePlayer, swordIdle,
    swordAttacker, CLASH_DRAIN_RATE, CLASH_GAIN_PER_TAP, CLASH_WIN_THRESHOLD,
    Entity.mk.injEq, List.map_cons]

theorem enemyDeath_pos (ctx : TickCtx) (acc : Acc) (ib : Bool) (e : Entity) :
    ∀ x ∈ (enemyDeath ctx acc ib e).2.toList, 0 < x.health := by
  intro x hx
  unfold enemyDeath at hx
  by_cases h : e.health ≤ 0
  · simp [h] at hx
  · simp [h] at hx
    rw [hx]
    exact lt_of_not_le h

theorem enemyStep_pos (ctx : TickCtx) (acc : Acc) (e : Entity) :
    ∀ x ∈ (enemyStep ctx acc e).2.toList, 0 < x.health := by
  simp only [enemyStep]
  exact enemyDeath_pos _ _ _ _

theorem runPass_aux_pos (ctx : TickCtx) (es : List Entity) :
    ∀ st : Acc × List Entity, (∀ x ∈ st.2, 0 < x.health) →
      ∀ x ∈ (es.foldl (enemyPassStep ctx) st).2, 0 < x.health := by
  induction es with
  | nil => intro st h x hx; exact h x hx
  | cons e es ih =>
      intro st h x hx
      simp only [List.foldl_cons] at hx
      refine ih (enemyPassStep ctx st e) ?_ x hx
      intro y hy
      simp only [enemyPassStep, List.mem_append] at hy
      rcases hy with hy | hy
      · exact h y hy
      · exact enemyStep_pos ctx st.1 e y hy

/-- C3 (amended): the enemy filter pass does remove, on the same tick,
every enemy whose health has dropped to 0 or below: every entity it keeps
has strictly positive health. (The clash-win and reflected-projectile
paths only set health to 0 and leave the removal to the next tick's
filter pass, as the counterexample shows.) -/
theorem enemy_filter_removes_nonpositive (ctx : TickCtx) (acc : Acc)
    (es : List Entity) :
    ((runEnemyPass ctx acc es).2.all (fun e => decide (0 < e.health)))
      = true := by
  rw [List.all_eq_true]
  intro x hx
  exact decide_eq_true
    (runPass_aux_pos ctx es (acc, []) (by intro y hy; simp at hy) x hx)

/-- C3 counterexample: on the tick that resolves a clash win the target
enemy's health reaches 0, yet it is still in the active enemy set when
the tick ends (the world stays PLAYING; removal only happens on the next
tick's filter pass). -/
theorem clash_win_keeps_dead_enemy :
    (update pwId env0 wClashWin).gameState = GameState.PLAYING
    ∧ (update pwId env0 wClashWin).enemies.map Entity.health = [0] := by
  obtain ⟨h1, h2, h3⟩ := updWin_fields
  exact ⟨h1, by rw [h2]; rfl⟩

/-- C6: on a clash loss the player's health is set to 1 in the hurt state
with knockback, the style rank drops two tiers floored at the bottom, and
the loss cooldown is 60 ticks while a win sets 45 — the loss cooldown is
longer than the win cooldown, not shorter. -/
theorem clash_loss_effects (env : Env) (wl ww : World)
    (hl1 : clashProg1 env wl < CLASH_WIN_THRESHOLD)
    (hl2 : clashProg1 env wl ≤ 0 ∨ wl.clashTimer - 1 ≤ 0)
    (hw : CLASH_WIN_THRESHOLD ≤ clashProg1 env ww) :
    (clashTick env wl).player.health = 1
    ∧ (clashTick env wl).player.state = ActionState.hurt
    ∧ (clashTick env wl).player.velX = -wl.player.facing * 25
    ∧ (clashTick env wl).stylePoints
        = rankThreshold (getStyleIndex wl.stylePoints - 2)
    ∧ (clashTick env wl).clashCooldown = 60
    ∧ (clashTick env wl).gameState = GameState.PLAYING
    ∧ (clashTick env ww).clashCooldown = 45
    ∧ (clashTick env ww).clashCooldown < (clashTick env wl).clashCooldown := by
  simp only [clashProg1] at hl1 hl2 hw
  simp only [clashTick]
  rw [if_neg (not_le.mpr hl1), if_pos hl2, if_pos hw]
  refine ⟨rfl, rfl, rfl, rfl, rfl, rfl, rfl, by norm_num⟩

theorem clash_loss_effects_witness :
    clashProg1 env0 wClashLoss < CLASH_WIN_THRESHOLD
    ∧ (clashProg1 env0 wClashLoss ≤ 0 ∨ wClashLoss.clashTimer - 1 ≤ 0)
    ∧ CLASH_WIN_THRESHOLD ≤ clashProg1 env0 wClashWin
    ∧ (clashTick env0 wClashLoss).player.health = 1
    ∧ (clashTick env0 wClashLoss).clashCooldown = 60
    ∧ (clashTick env0 wClashWin).clashCooldown = 45 := by
  have h1 : clashProg1 env0 wClashLoss < CLASH_WIN_THRESHOLD := by
    norm_num [clashProg1, env0, wClashLoss, baseWorld, CLASH_DRAIN_RATE,
      CLASH_GAIN_PER_TAP, CLASH_WIN_THRESHOLD]
  have h2 : clashProg1 env0 wClashLoss ≤ 0 ∨ wClashLoss.clashTimer - 1 ≤ 0 := by
    left
    norm_num [clashProg1, env0, wClashLoss, baseWorld, CLASH_DRAIN_RATE,
      CLASH_GAIN_PER_TAP]
  have h3 : CLASH_WIN_THRESHOLD ≤ clashProg1 env0 wClashWin := by
    norm_num [clashProg1, env0, wClashWin, baseWorld, CLASH_DRAIN_RATE,
      CLASH_GAIN_PER_TAP, CLASH_WIN_THRESHOLD]
  obtain ⟨a, _, _, _, b, _, c, _⟩ := clash_loss_effects env0 wClashLoss
    wClashWin h1 h2 h3
  exact ⟨h1, h2, h3, a, b, c⟩

/-- C6 counterexample: at the update level, the post-clash cooldown after
a loss (60 ticks) is not shorter than after a win (45 ticks) — the spec
has the comparison backwards. -/
theorem clash_cooldown_not_shorter_on_loss :
    (update pwId env0 wClashLoss).clashCooldown = 60
    ∧ (update pwId env0 wClashWin).clashCooldown = 45
    ∧ ¬((update pwId env0 wClashLoss).clashCooldown
        < (update pwId env0 wClashWin).clashCooldown) := by
  have hl : (update pwId env0 wClashLoss).clashCooldown = 60 := by
    rw [update_clashing pwId env0 wClashLoss rfl
        (by norm_num [wClashLoss, baseWorld]), tickPre_wClashLoss]
    norm_num [clashTick, env0, wClashLoss, baseWorld, CLASH_DRAIN_RATE,
      CLASH_GAIN_PER_TAP, CLASH_WIN_THRESHOLD]
  have hwn : (update pwId env0 wClashWin).clashCooldown = 45 :=
    updWin_fields.2.2
  exact ⟨hl, hwn, by rw [hl, hwn]; norm_num⟩

theorem tickPre_wEntry : tickPre env0 wEntry = wEntry := by
  norm_num [tickPre, env0, wEntry, baseWorld, basePlayer, getStyleIndex_eq,
    min_def, max_def, World.mk.injEq, Entity.mk.injEq, SLOW_MO_FACTOR]

set_option maxHeartbeats 1600000 in
theorem ctrl_wEntry : mainCtrl pwId env0 wEntry
    = { p := pEntryOut, processedJ := false, processedK := false,
        processedJumpKey := false, slamHitTriggered := false,
        cameraShake := 0, particles := 0 } := by
  norm_num [mainCtrl, tickDt, if_decide, playerControl, playerMove,
    playerAttackSelect, ctrlIntegrate, dashDirs, env0, wEntry, baseWorld,
    basePlayer, pwId, dashFixedDt, specFrictionBase, groundY, CANVAS_HEIGHT,
    GRAVITY, FRICTION, ne_eq, reduceCtorEq, not_false_eq_true, and_self,
    and_true, true_and, if_true, if_false, ite_true, ite_false,
    List.mem_cons, List.mem_singleton, or_false, false_or, pEntryOut,
    CtrlOut.mk.injEq, Entity.mk.injEq, min_def, max_def]
  simp only [if_pos (show ¬ActionState.attack = ActionState.hurt
      ∧ ¬ActionState.attack = ActionState.clash from by decide),
    if_neg (show ¬(ActionState.attack = ActionState.spin_attack)
      from by decide)]
  norm_num
  decide

theorem ctx_wEntry : mainCtx pwId env0 wEntry = ctxE := by
  simp only [mainCtx, ctrl_wEntry, ctxE, tickDt]
  norm_num [TickCtx.mk.injEq, wEntry, baseWorld, basePlayer, pEntryOut,
    getStyleIndex_eq, dmgMultOf, env0]

theorem acc0_wEntry : mainAcc0 pwId env0 wEntry = accE0 := by
  simp only [mainAcc0, ctrl_wEntry]
  norm_num [Acc.mk.injEq, accE0, wEntry, baseWorld, basePlayer, env0,
    styleAfterDecay, getStyleIndex_eq, nextThresholdOr1000, tickDt,
    rankThreshold, STYLE_RANKS, List.getD, max_def, min_def, pEntryOut,
    StyleAcc.mk.injEq]

set_option maxHeartbeats 1600000 in
theorem pass_wEntry : mainPass pwId env0 wEntry = (accEOut, [eEntryOut]) := by
  simp only [mainPass, ctx_wEntry, acc0_wEntry]
  show runEnemyPass ctxE accE0 [swordAttacker] = (accEOut, [eEntryOut])
  norm_num [runEnemyPass, enemyPassStep, enemyStep, applyHurtDrift,
    applySpin, applyAI, applyWindup, enemyCombat, integrateEnemy,
    enemyDeath, qabs, qsign, if_decide, ctxE, accE0, accEOut, pEntryOut,
    eEntryOut, swordAttacker, env0, pwId, basePlayer, groundY,
    CANVAS_HEIGHT, GRAVITY, ne_eq, reduceCtorEq, not_false_eq_true,
    and_self, and_true, true_and, if_true, if_false, ite_true, ite_false,
    min_def, max_def, Acc.mk.injEq, Entity.mk.injEq, StyleAcc.mk.injEq,
    Prod.mk.injEq, rankHeals, List.getD, stateName]
  simp only [if_neg (show ¬(EntityType.ENEMY_SWORD = EntityType.BOSS)
    from by decide)]
  norm_num
  simp only [if_neg (show ¬(ActionState.attack = ActionState.spin_attack)
    from by decide)]
  norm_num
  simp only [if_pos (show ¬EntityType.ENEMY_SWORD = EntityType.ENEMY_GUN
    ∧ ¬ActionState.attack = ActionState.spin_attack from by decide)]
  norm_num

theorem bullet_wEntry : mainBullet pwId env0 wEntry
    = ({ accEOut with enemies := [eEntryOut] }, []) := by
  simp only [mainBullet, ctx_wEntry, pass_wEntry]
  rfl

theorem updEntry_fields :
    (update pwId env0 wEntry).gameState = GameState.CLASHING
    ∧ (update pwId env0 wEntry).clashTimer = 123
    ∧ (update pwId env0 wEntry).clashProgress = 40
    ∧ (update pwId env0 wEntry).clashTargetId = some 7 := by
  rw [update_playing pwId env0 wEntry rfl (by norm_num [wEntry, baseWorld]),
    tickPre_wEntry]
  simp only [mainTick, bullet_wEntry]
  norm_num [accEOut, accE0, pEntryOut, basePlayer, wEntry, baseWorld]

theorem acc_inv_trans {a b : Acc}
    (hp : b.pending = a.pending) (hq : b.clashProgress = a.clashProgress)
    (ht : b.clashTargetId = a.clashTargetId)
    (h : a.pending = GameState.CLASHING →
      a.clashProgress = 40 ∧ a.clashTargetId.isSome = true) :
    b.pending = GameState.CLASHING →
      b.clashProgress = 40 ∧ b.clashTargetId.isSome = true := by
  intro hc
  rw [hp] at hc
  rw [hq, ht]
  exact h hc

theorem applySpin_acc_fields (ctx : TickCtx) (acc : Acc) (d v pc ec : ℚ)
    (ib : Bool) (e : Entity) :
    (applySpin ctx acc d v pc ec ib e).1.pending = acc.pending
    ∧ (applySpin ctx acc d v pc ec ib e).1.clashProgress = acc.clashProgress
    ∧ (applySpin ctx acc d v pc ec ib e).1.clashTargetId
        = acc.clashTargetId := by
  simp only [applySpin]
  split_ifs <;> exact ⟨rfl, rfl, rfl⟩

theorem enemyDeath_acc_fields (ctx : TickCtx) (acc : Acc) (ib : Bool)
    (e : Entity) :
    (enemyDeath ctx acc ib e).1.pending = acc.pending
    ∧ (enemyDeath ctx acc ib e).1.clashProgress = acc.clashProgress
    ∧ (enemyDeath ctx acc ib e).1.clashTargetId = acc.clashTargetId := by
  simp only [enemyDeath]
  split_ifs <;> exact ⟨rfl, rfl, rfl⟩

theorem enemyCombat_clash_inv (ctx : TickCtx) (d v : ℚ) (ib : Bool)
    (acc : Acc) (e : Entity)
    (h : acc.pending = GameState.CLASHING →
      acc.clashProgress = 40 ∧ acc.clashTargetId.isSome = true) :
    (enemyCombat ctx d v ib acc e).1.pending = GameState.CLASHING →
      (enemyCombat ctx d v ib acc e).1.clashProgress = 40
      ∧ ((enemyCombat ctx d v ib acc e).1.clashTargetId).isSome = true := by
  simp only [enemyCombat]
  split_ifs <;> first | exact h | (intro _; exact ⟨rfl, rfl⟩)

theorem enemyStep_clash_inv (ctx : TickCtx) (acc : Acc) (e : Entity)
    (h : acc.pending = GameState.CLASHING →
      acc.clashProgress = 40 ∧ acc.clashTargetId.isSome = true) :
    (enemyStep ctx acc e).1.pending = GameState.CLASHING →
      (enemyStep ctx acc e).1.clashProgress = 40
      ∧ ((enemyStep ctx acc e).1.clashTargetId).isSome = true := by
  simp only [enemyStep]
  refine acc_inv_trans (enemyDeath_acc_fields _ _ _ _).1
    (enemyDeath_acc_fields _ _ _ _).2.1
    (enemyDeath_acc_fields _ _ _ _).2.2 ?_
  refine enemyCombat_clash_inv _ _ _ _ _ _ ?_
  refine acc_inv_trans rfl rfl rfl ?_
  exact acc_inv_trans (applySpin_acc_fields _ _ _ _ _ _ _ _).1
    (applySpin_acc_fields _ _ _ _ _ _ _ _).2.1
    (applySpin_acc_fields _ _ _ _ _ _ _ _).2.2 h

theorem runPass_clash_inv (ctx : TickCtx) (es : List Entity) :
    ∀ st : Acc × List Entity,
      (st.1.pending = GameState.CLASHING →
        st.1.clashProgress = 40 ∧ (st.1.clashTargetId).isSome = true) →
      ((es.foldl (enemyPassStep ctx) st).1.pending = GameState.CLASHING →
        (es.foldl (enemyPassStep ctx) st).1.clashProgress = 40
        ∧ ((es.foldl (enemyPassStep ctx) st).1.clashTargetId).isSome
            = true) := by
  induction es with
  | nil => intro st h; exact h
  | cons e es ih =>
      intro st h
      simp only [List.foldl_cons]
      exact ih (enemyPassStep ctx st e) (enemyStep_clash_inv ctx st.1 e h)

theorem bulletStep_acc_fields (ctx : TickCtx) (acc : Acc) (b : Bullet) :
    (bulletStep ctx acc b).1.pending = acc.pending
    ∧ (bulletStep ctx acc b).1.clashProgress = acc.clashProgress
    ∧ (bulletStep ctx acc b).1.clashTargetId = acc.clashTargetId := by
  simp only [bulletStep]
  split_ifs <;> exact ⟨rfl, rfl, rfl⟩

theorem runBullet_acc_fields (ctx : TickCtx) (bs : List Bullet) :
    ∀ st : Acc × List Bullet,
      ((bs.foldl (bulletPassStep ctx) st).1.pending = st.1.pending
       ∧ (bs.foldl (bulletPassStep ctx) st).1.clashProgress
           = st.1.clashProgress
       ∧ (bs.foldl (bulletPassStep ctx) st).1.clashTargetId
           = st.1.clashTargetId) := by
  induction bs with
  | nil => intro st; exact ⟨rfl, rfl, rfl⟩
  | cons b bs ih =>
      intro st
      simp only [List.foldl_cons]
      obtain ⟨x, y, z⟩ := ih (bulletPassStep ctx st b)
      obtain ⟨u, v, w⟩ := bulletStep_acc_fields ctx st.1 b
      exact ⟨x.trans u, y.trans v, z.trans w⟩

theorem mainBullet_clash_inv (pw : PowFn) (env : Env) (w : World)
    (h : w.gameState = GameState.PLAYING) :
    (mainBullet pw env w).1.pending = GameState.CLASHING →
      (mainBullet pw env w).1.clashProgress = 40
      ∧ ((mainBullet pw env w).1.clashTargetId).isSome = true := by
  obtain ⟨bp, bq, bt⟩ := runBullet_acc_fields (mainCtx pw env w)
    (mainPass pw env w).1.bullets
    ({ (mainPass pw env w).1 with enemies := (mainPass pw env w).2 }, [])
  have bp' : (mainBullet pw env w).1.pending
      = (mainPass pw env w).1.pending := bp
  have bq' : (mainBullet pw env w).1.clashProgress
      = (mainPass pw env w).1.clashProgress := bq
  have bt' : (mainBullet pw env w).1.clashTargetId
      = (mainPass pw env w).1.clashTargetId := bt
  intro hx
  rw [bp'] at hx
  have hinv0 : (mainAcc0 pw env w).pending = GameState.CLASHING →
      (mainAcc0 pw env w).clashProgress = 40
      ∧ ((mainAcc0 pw env w).clashTargetId).isSome = true := by
    intro hx0
    have hx1 : w.gameState = GameState.CLASHING := hx0
    rw [h] at hx1
    exact absurd hx1 (by decide)
  have hp := runPass_clash_inv (mainCtx pw env w) w.enemies
    (mainAcc0 pw env w, []) hinv0
  obtain ⟨r1, r2⟩ := hp hx
  have r1' : (mainPass pw env w).1.clashProgress = 40 := r1
  have r2' : ((mainPass pw env w).1.clashTargetId).isSome = true := r2
  refine ⟨bq'.trans r1', ?_⟩
  rw [bt']
  exact r2'

/-- C5 (amended): a PLAYING tick never modifies the clash countdown timer
— entry into the clash carries the timer value over unchanged rather than
resetting it to 300 — and whenever the tick enters the clash, the clash
progress is set to 40 and an opposing actor id is recorded. -/
theorem clash_entry_sets_progress_and_target (pw : PowFn) (env : Env)
    (w : World) (hg : w.gameState = GameState.PLAYING)
    (hs : ¬ 0 < w.hitStop) :
    (update pw env w).clashTimer = w.clashTimer
    ∧ ((update pw env w).gameState = GameState.CLASHING →
        (update pw env w).clashProgress = 40
        ∧ ((update pw env w).clashTargetId).isSome = true) := by
  rw [update_playing pw env w hg hs]
  refine ⟨rfl, ?_⟩
  intro hcl
  have hb := mainBullet_clash_inv pw env (tickPre env w)
    (show (tickPre env w).gameState = GameState.PLAYING from hg)
  simp only [mainTick] at hcl
  by_cases hh : (mainBullet pw env (tickPre env w)).1.player.health ≤ 0
  · rw [if_pos hh] at hcl
    exact absurd hcl (by decide)
  · rw [if_neg hh] at hcl
    obtain ⟨r1, r2⟩ := hb hcl
    exact ⟨by simp only [mainTick]; exact r1, by simp only [mainTick]; exact r2⟩

/-- C5 counterexample: a tick that enters the clash leaves the countdown
timer at its stale prior value (123 here), not at the spec's 300. -/
theorem clash_entry_timer_not_reset :
    (update pwId env0 wEntry).gameState = GameState.CLASHING
    ∧ (update pwId env0 wEntry).clashTimer = 123
    ∧ (update pwId env0 wEntry).clashTimer ≠ 300 := by
  obtain ⟨h1, h2, _, _⟩ := updEntry_fields
  exact ⟨h1, h2, by rw [h2]; norm_num⟩

theorem clash_entry_sets_progress_and_target_witness :
    wEntry.gameState = GameState.PLAYING
    ∧ ¬ 0 < wEntry.hitStop
    ∧ (update pwId env0 wEntry).clashTimer = wEntry.clashTimer
    ∧ (update pwId env0 wEntry).gameState = GameState.CLASHING
    ∧ (update pwId env0 wEntry).clashProgress = 40
    ∧ ((update pwId env0 wEntry).clashTargetId).isSome = true := by
  have hg : wEntry.gameState = GameState.PLAYING := rfl
  have hs : ¬ 0 < wEntry.hitStop := by norm_num [wEntry, baseWorld]
  obtain ⟨h1, h2⟩ := clash_entry_sets_progress_and_target pwId env0 wEntry
    hg hs
  have hc := updEntry_fields.1
  obtain ⟨h3, h4⟩ := h2 hc
  exact ⟨hg, hs, h1, hc, h3, h4⟩

theorem applyHurtDrift_idtype (ctx : TickCtx) (pc ec : ℚ) (e : Entity) :
    (applyHurtDrift ctx pc ec e).id = e.id
    ∧ (applyHurtDrift ctx pc ec e).type = e.type := by
  simp only [applyHurtDrift]
  split_ifs <;> exact ⟨rfl, rfl⟩

theorem applySpin_idtype (ctx : TickCtx) (acc : Acc) (d v pc ec : ℚ)
    (ib : Bool) (e : Entity) :
    (applySpin ctx acc d v pc ec ib e).2.id = e.id
    ∧ (applySpin ctx acc d v pc ec ib e).2.type = e.type := by
  simp only [applySpin]
  split_ifs <;> exact ⟨rfl, rfl⟩

theorem applyAI_idtype (ctx : TickCtx) (pc ec d : ℚ) (ib : Bool)
    (e : Entity) :
    (applyAI ctx pc ec d ib e).id = e.id
    ∧ (applyAI ctx pc ec d ib e).type = e.type := by
  simp only [applyAI]
  split_ifs <;> exact ⟨rfl, rfl⟩

theorem applyWindup_idtype (ctx : TickCtx) (ib : Bool) (e : Entity) :
    (applyWindup ctx ib e).1.id = e.id
    ∧ (applyWindup ctx ib e).1.type = e.type := by
  simp only [applyWindup]
  split_ifs <;> exact ⟨rfl, rfl⟩

theorem enemyCombat_target (ctx : TickCtx) (d v : ℚ) (ib : Bool)
    (acc : Acc) (e : Entity) :
    (enemyCombat ctx d v ib acc e).1.clashTargetId = acc.clashTargetId
    ∨ (e.type ≠ EntityType.ENEMY_GUN
       ∧ (enemyCombat ctx d v ib acc e).1.clashTargetId = some e.id) := by
  simp only [enemyCombat]
  by_cases h1 : ctx.isPAttacking = true
      ∧ (e.state = ActionState.attack ∧ e.type ≠ EntityType.ENEMY_GUN
          ∧ 12 < e.stateTimer)
      ∧ d < (if ib = true then (340 : ℚ) else 240)
      ∧ v < (if ib = true then (200 : ℚ) else 120)
      ∧ acc.player.state ≠ ActionState.spin_attack ∧ acc.clashCooldown ≤ 0
  · rw [if_pos h1]
    right
    obtain ⟨_, ⟨_, hgun, _⟩, _⟩ := h1
    exact ⟨hgun, rfl⟩
  · rw [if_neg h1]
    by_cases h2 : ctx.isPAttacking = true
        ∧ d < (if ib = true then (200 : ℚ) else 150)
        ∧ v < (if ib = true then (180 : ℚ) else 120)
        ∧ (e.state ≠ ActionState.hurt ∨ e.stateTimer < 12)
        ∧ acc.player.state ≠ ActionState.spin_attack
    · rw [if_pos h2]
      left
      rfl
    · rw [if_neg h2]
      by_cases h3 : (e.state = ActionState.attack
            ∧ e.type ≠ EntityType.ENEMY_GUN ∧ 12 < e.stateTimer)
          ∧ d < (if ib = true then (180 : ℚ)
              else if e.type = EntityType.ENEMY_LANCER then 260 else 100)
          ∧ v < (if ib = true then (150 : ℚ) else 100)
          ∧ acc.player.state ≠ ActionState.hurt
          ∧ acc.player.state ≠ ActionState.dodge
      · rw [if_pos h3]
        left
        rfl
      · rw [if_neg h3]
        left
        rfl

theorem enemyStep_target (ctx : TickCtx) (acc : Acc) (e : Entity) :
    (enemyStep ctx acc e).1.clashTargetId = acc.clashTargetId
    ∨ (e.type ≠ EntityType.ENEMY_GUN
       ∧ (enemyStep ctx acc e).1.clashTargetId = some e.id) := by
  simp only [enemyStep]
  rw [(enemyDeath_acc_fields _ _ _ _).2.2]
  rcases enemyCombat_target _ _ _ _ _ _ with h | ⟨hgun, h⟩
  · left
    rw [h]
    exact (applySpin_acc_fields _ _ _ _ _ _ _ _).2.2
  · right
    rw [(applyWindup_idtype _ _ _).2, (applyAI_idtype _ _ _ _ _ _).2,
      (applySpin_idtype _ _ _ _ _ _ _ _).2,
      (applyHurtDrift_idtype _ _ _ _).2] at hgun
    rw [(applyWindup_idtype _ _ _).1, (applyAI_idtype _ _ _ _ _ _).1,
      (applySpin_idtype _ _ _ _ _ _ _ _).1,
      (applyHurtDrift_idtype _ _ _ _).1] at h
    exact ⟨hgun, h⟩

theorem runPass_target (ctx : TickCtx) (L : List Entity) (t0 : Option ℕ) :
    ∀ (es : List Entity), (∀ x ∈ es, x ∈ L) →
    ∀ st : Acc × List Entity,
      (st.1.clashTargetId = t0
       ∨ ∃ e, e ∈ L ∧ e.type ≠ EntityType.ENEMY_GUN
           ∧ st.1.clashTargetId = some e.id) →
      ((es.foldl (enemyPassStep ctx) st).1.clashTargetId = t0
       ∨ ∃ e, e ∈ L ∧ e.type ≠ EntityType.ENEMY_GUN
           ∧ (es.foldl (enemyPassStep ctx) st).1.clashTargetId
               = some e.id) := by
  intro es
  induction es with
  | nil => intro _ st h; exact h
  | cons a es ih =>
      intro hmem st h
      simp only [List.foldl_cons]
      refine ih (fun x hx => hmem x (List.mem_cons_of_mem a hx))
        (enemyPassStep ctx st a) ?_
      rcases enemyStep_target ctx st.1 a with h1 | ⟨hgun, h1⟩
      · rcases h with h0 | ⟨e, he, hge, h0⟩
        · left; exact h1.trans h0
        · right; exact ⟨e, he, hge, h1.trans h0⟩
      · right
        exact ⟨a, hmem a (List.mem_cons_self a es), hgun, h1⟩

theorem mainBullet_target (pw : PowFn) (env : Env) (w : World) :
    (mainBullet pw env w).1.clashTargetId
      = (mainPass pw env w).1.clashTargetId :=
  (runBullet_acc_fields (mainCtx pw env w) (mainPass pw env w).1.bullets
    ({ (mainPass pw env w).1 with enemies := (mainPass pw env w).2 },
      [])).2.2

/-- C10: when a PLAYING tick records a new clash target, that target is
the id of an enemy from the tick's enemy list whose type is not
ENEMY_GUN: a gun-type (ranged) enemy is never recorded as the clash
opponent. -/
theorem clash_target_never_gun (pw : PowFn) (env : Env) (w : World)
    (hg : w.gameState = GameState.PLAYING) (hs : ¬ 0 < w.hitStop)
    (hch : (update pw env w).clashTargetId ≠ w.clashTargetId) :
    ∃ e, e ∈ w.enemies ∧ e.type ≠ EntityType.ENEMY_GUN
      ∧ (update pw env w).clashTargetId = some e.id := by
  rw [update_playing pw env w hg hs] at hch ⊢
  have htick : (mainTick pw env (tickPre env w)).clashTargetId
      = (mainBullet pw env (tickPre env w)).1.clashTargetId := rfl
  rw [htick] at hch ⊢
  rw [mainBullet_target] at hch ⊢
  have hfold := runPass_target (mainCtx pw env (tickPre env w)) w.enemies
    w.clashTargetId (tickPre env w).enemies (fun x hx => hx)
    (mainAcc0 pw env (tickPre env w), []) (Or.inl rfl)
  rcases hfold with h0 | ⟨e, he, hgun, h0⟩
  · exact absurd (show (mainPass pw env (tickPre env w)).1.clashTargetId
      = w.clashTargetId from h0) hch
  · exact ⟨e, he, hgun,
      show (mainPass pw env (tickPre env w)).1.clashTargetId
        = some e.id from h0⟩

theorem clash_target_never_gun_witness :
    wEntry.gameState = GameState.PLAYING
    ∧ ¬ 0 < wEntry.hitStop
    ∧ (update pwId env0 wEntry).clashTargetId ≠ wEntry.clashTargetId
    ∧ ∃ e, e ∈ wEntry.enemies ∧ e.type ≠ EntityType.ENEMY_GUN
        ∧ (update pwId env0 wEntry).clashTargetId = some e.id := by
  have hs : ¬ 0 < wEntry.hitStop := by norm_num [wEntry, baseWorld]
  have hch : (update pwId env0 wEntry).clashTargetId
      ≠ wEntry.clashTargetId := by
    rw [updEntry_fields.2.2.2]
    decide
  exact ⟨rfl, hs, hch,
    clash_target_never_gun pwId env0 wEntry rfl hs hch⟩

theorem tickPre_wBossHit : tickPre env0 wBossHit = wBossHit := by
  norm_num [tickPre, env0, wBossHit, baseWorld, basePlayer, getStyleIndex_eq,
    min_def, max_def, World.mk.injEq, Entity.mk.injEq, SLOW_MO_FACTOR]

set_option maxHeartbeats 1600000 in
theorem ctrl_wBossHit : mainCtrl pwId env0 wBossHit
    = { p := pBossCtrl, processedJ := false, processedK := false,
        processedJumpKey := false, slamHitTriggered := false,
        cameraShake := 0, particles := 0 } := by
  norm_num [mainCtrl, tickDt, if_decide, playerControl, playerMove,
    playerAttackSelect, ctrlIntegrate, dashDirs, env0, wBossHit, baseWorld,
    basePlayer, pwId, dashFixedDt, specFrictionBase, groundY, CANVAS_HEIGHT,
    GRAVITY, FRICTION, ne_eq, reduceCtorEq, not_false_eq_true, and_self,
    and_true, true_and, if_true, if_false, ite_true, ite_false,
    List.mem_cons, List.mem_singleton, or_false, false_or, pBossCtrl,
    CtrlOut.mk.injEq, Entity.mk.injEq, min_def, max_def]
  simp only [if_pos (show ¬ActionState.idle = ActionState.hurt
      ∧ ¬ActionState.idle = ActionState.clash from by decide),
    if_neg (show ¬(ActionState.idle = ActionState.spin_attack)
      from by decide)]
  norm_num
  decide

theorem ctx_wBossHit : mainCtx pwId env0 wBossHit = ctxB := by
  simp only [mainCtx, ctrl_wBossHit, ctxB, tickDt]
  norm_num [TickCtx.mk.injEq, wBossHit, baseWorld, basePlayer, pBossCtrl,
    getStyleIndex_eq, dmgMultOf, env0]
  decide

theorem acc0_wBossHit : mainAcc0 pwId env0 wBossHit = accB0 := by
  simp only [mainAcc0, ctrl_wBossHit]
  norm_num [Acc.mk.injEq, accB0, wBossHit, baseWorld, basePlayer, env0,
    styleAfterDecay, getStyleIndex_eq, nextThresholdOr1000, tickDt,
    rankThreshold, STYLE_RANKS, List.getD, max_def, min_def, pBossCtrl,
    StyleAcc.mk.injEq]

set_option maxHeartbeats 1600000 in
theorem pass_wBossHit : mainPass pwId env0 wBossHit
    = (accBOut, [eBossOut]) := by
  simp only [mainPass, ctx_wBossHit, acc0_wBossHit]
  show runEnemyPass ctxB accB0 [bossAttacker] = (accBOut, [eBossOut])
  norm_num [runEnemyPass, enemyPassStep, enemyStep, applyHurtDrift,
    applySpin, applyAI, applyWindup, enemyCombat, integrateEnemy,
    enemyDeath, qabs, qsign, if_decide, ctxB, accB0, accBOut, pBossCtrl,
    pBossOut, eBossOut, bossAttacker, env0, pwId, basePlayer, groundY,
    CANVAS_HEIGHT, GRAVITY, ne_eq, reduceCtorEq, not_false_eq_true,
    and_self, and_true, true_and, if_true, if_false, ite_true, ite_false,
    min_def, max_def, Acc.mk.injEq, Entity.mk.injEq, StyleAcc.mk.injEq,
    Prod.mk.injEq, rankHeals, List.getD, stateName]
  simp only [if_neg (show ¬(ActionState.idle = ActionState.spin_attack)
    from by decide)]
  norm_num
  simp only [if_pos (show ¬EntityType.BOSS = EntityType.ENEMY_GUN
    ∧ ¬ActionState.idle = ActionState.hurt
    ∧ ¬ActionState.idle = ActionState.dodge from by decide)]
  norm_num

theorem bullet_wBossHit : mainBullet pwId env0 wBossHit
    = ({ accBOut with enemies := [eBossOut] }, []) := by
  simp only [mainBullet, ctx_wBossHit, pass_wBossHit]
  rfl

theorem updBoss_fields :
    (update pwId env0 wBossHit).player.health = -25
    ∧ (update pwId env0 wBossHit).gameState = GameState.GAME_OVER := by
  rw [update_playing pwId env0 wBossHit rfl
      (by norm_num [wBossHit, baseWorld]), tickPre_wBossHit]
  simp only [mainTick, bullet_wBossHit]
  norm_num [accBOut, accB0, pBossOut, basePlayer]

/-- C4 counterexample: an idle player at 10 health takes a 35-damage boss
hit and ends the tick at health -25: health is not clamped at zero. -/
theorem player_health_goes_negative :
    (update pwId env0 wBossHit).player.health = -25
    ∧ (update pwId env0 wBossHit).player.health < 0 := by
  obtain ⟨h1, _⟩ := updBoss_fields
  exact ⟨h1, by rw [h1]; norm_num⟩

/-- C4 (amended): health is not clamped at zero — the player's health can
end a tick strictly negative — but a tick that ends with the player at
health ≤ 0 always sets the game state to GAME_OVER. -/
theorem nonpositive_health_forces_game_over (pw : PowFn) (env : Env)
    (w : World) (hg : w.gameState = GameState.PLAYING)
    (hs : ¬ 0 < w.hitStop)
    (hh : (update pw env w).player.health ≤ 0) :
    (update pw env w).gameState = GameState.GAME_OVER := by
  rw [update_playing pw env w hg hs] at hh ⊢
  have hh' : (mainBullet pw env (tickPre env w)).1.player.health ≤ 0 := hh
  simp only [mainTick]
  rw [if_pos hh']

theorem nonpositive_health_forces_game_over_witness :
    wBossHit.gameState = GameState.PLAYING
    ∧ ¬ 0 < wBossHit.hitStop
    ∧ (update pwId env0 wBossHit).player.health ≤ 0
    ∧ (update pwId env0 wBossHit).gameState = GameState.GAME_OVER := by
  have hs : ¬ 0 < wBossHit.hitStop := by norm_num [wBossHit, baseWorld]
  have hh : (update pwId env0 wBossHit).player.health ≤ 0 := by
    rw [updBoss_fields.1]
    norm_num
  exact ⟨rfl, hs, hh,
    nonpositive_health_forces_game_over pwId env0 wBossHit rfl hs hh⟩

end PixelSamurai
